import Mathlib

/-!
Shallow embedding of the multi-tenant POS master-data / cart backend
(`services/master-data` and `services/cart`), covering:

* the document models (`DiscountStoreMasterDocument`,
  `CategoryDiscountMasterDocument`, `CategoryDiscountDetailDocument`,
  the cart-side `CategoryDiscountDetailsDocument`);
* the tenant-scoped repositories (`DiscountStoreMasterRepository`,
  `CategoryDiscountMasterRepository`) and their query filters;
* the services (`DiscountStoreMasterService`,
  `CategoryDiscountMasterService`) with the existence-check-then-mutate
  pattern and the category-discount detail composition;
* the item-book nested editor operations;
* the cart-side web repository cache;
* the `get_category_discount_detail` API endpoint branching.

The MongoDB collection of each repository is embedded as a `List` of
documents; fallible Python code becomes `Except`-returning functions, with
the mutated collection threaded explicitly.
-/

namespace PosMasterData

/-- Error taxonomy of `kugel_common.exceptions` as raised by the embedded
code paths: `DocumentNotFoundException`, `DocumentAlreadyExistsException`,
`RepositoryException`/`NotFoundException` (cart side), the pydantic
`ValueError` raised by a field validator, and the bare `Exception`s raised
in the repository layer. -/
inductive AppError where
  | documentNotFound
  | documentAlreadyExists
  | repositoryError
  | validationError
  | genericError
deriving DecidableEq, Repr

/-- `app/models/documents/discount_store_master_document.py`:
`DiscountStoreMasterDocument` with its optional fields, plus the
`shard_key` field assigned by the repository on create.  `discount_value`
(a Python float used only for range comparison and copying) is embedded
as a rational number. -/
structure DiscountStoreMasterDocument where
  tenant_id : Option String := none
  store_code : Option String := none
  discount_code : Option String := none
  discount_value : Option ℚ := none
  description : Option String := none
  shard_key : Option String := none
deriving DecidableEq, Repr

/-- `app/models/documents/category_discount_master_document.py`:
`CategoryDiscountMasterDocument` with its optional fields, plus the
`shard_key` field assigned by the repository on create. -/
structure CategoryDiscountMasterDocument where
  tenant_id : Option String := none
  category_code : Option String := none
  store_code : Option String := none
  discount_code : Option String := none
  description : Option String := none
  description_short : Option String := none
  shard_key : Option String := none
deriving DecidableEq, Repr

/-- `app/models/documents/category_discount_detail_document.py`:
`CategoryDiscountDetailDocument` (extends the category discount master
document with `discount_value`).  A freshly constructed instance has every
field `none`, matching `CategoryDiscountDetailDocument()` in Python. -/
structure CategoryDiscountDetailDocument where
  tenant_id : Option String := none
  category_code : Option String := none
  store_code : Option String := none
  discount_code : Option String := none
  description : Option String := none
  description_short : Option String := none
  discount_value : Option ℚ := none
deriving DecidableEq, Repr

/-- `CategoryDiscountDetailDocument.validate_discount_value`
(`category_discount_detail_document.py` lines 35-42): the pydantic field
validator raising `ValueError` when the value is present and outside
`[0.00, 100.00]`.  This validator is declared only on
`CategoryDiscountDetailDocument`; `DiscountStoreMasterDocument` declares
no validator. -/
def validate_discount_value (v : Option ℚ) : Except AppError (Option ℚ) :=
  match v with
  | none => Except.ok none
  | some x => if x < 0 ∨ x > 100 then Except.error AppError.validationError else Except.ok (some x)

/-! ### Generic MongoDB-backed repository operations

The concrete repositories extend `AbstractRepository` from the
`kugel_common` package, which is not part of the extracted sources.  The
operations below are modelled from the spec, section 4.1. -/

/-- Modelled from the spec: `AbstractRepository.get_one_async` — "returns
the unique document matching (tenant_id, natural_key), or a not found
sentinel (null/empty), never throws for absence".  Embedded as the first
document of the collection matching the query filter. -/
def find_one (m : α → Bool) (s : List α) : Option α :=
  s.find? m

/-- Modelled from the spec: `AbstractRepository.create_async` — "inserts"
the document into the collection. -/
def insert_doc (d : α) (s : List α) : List α :=
  s ++ [d]

/-- Modelled from the spec: `AbstractRepository.update_one_async` —
"applies a partial field merge to the matching document"; updates the
first document matching the filter and reports whether one matched. -/
def update_first (m : α → Bool) (u : α → α) : List α → Bool × List α
  | [] => (false, [])
  | d :: ds =>
    if m d then (true, u d :: ds)
    else
      let r := update_first m u ds
      (r.1, d :: r.2)

/-- Modelled from the spec: `AbstractRepository.delete_async` — "removes
the matching document"; removes the first document matching the filter
and reports whether one matched. -/
def delete_first (m : α → Bool) : List α → Bool × List α
  | [] => (false, [])
  | d :: ds =>
    if m d then (true, ds)
    else
      let r := delete_first m ds
      (r.1, d :: r.2)

/-- `kugel_common.schemas.pagination.PaginatedResult`: the page of
documents plus the total-count metadata. -/
structure PaginatedResult (α : Type) where
  data : List α
  total_count : ℕ
deriving DecidableEq, Repr

/-- Modelled from the spec: `AbstractRepository.get_paginated_list_async`
— "applies sort (field, direction ±1) then skip/limit pagination (page is
1-based: skip = (page-1)*limit), returns both the page of documents and
total-count metadata"; "total-count must reflect the filter before
skip/limit are applied".  The denotation of the MongoDB sort
specification is a comparator `le`; sorting is stable merge sort. -/
def get_paginated_list (m : α → Bool) (limit page : ℕ) (le : α → α → Bool)
    (s : List α) : PaginatedResult α :=
  let matched := s.filter m
  { data := ((matched.mergeSort le).drop ((page - 1) * limit)).take limit
    total_count := matched.length }

/-! ### Discount store repository (`discount_store_master_repository.py`) -/

/-- A MongoDB equality query filter over the discount store collection:
each present entry constrains the corresponding document field to equal
the given (possibly null) value.  Dict entries absent from the filter
leave the field unconstrained. -/
structure StoreQueryFilter where
  tenant_id : Option (Option String) := none
  store_code : Option (Option String) := none
  discount_code : Option (Option String) := none
deriving DecidableEq, Repr

/-- MongoDB equality matching of a discount store document against a
query filter. -/
def StoreQueryFilter.matches (f : StoreQueryFilter) (d : DiscountStoreMasterDocument) : Bool :=
  (match f.tenant_id with | none => true | some v => decide (d.tenant_id = v)) &&
  (match f.store_code with | none => true | some v => decide (d.store_code = v)) &&
  (match f.discount_code with | none => true | some v => decide (d.discount_code = v))

/-- `DiscountStoreMasterRepository.__make_query_filter` (lines 161-171):
`{"tenant_id": self.tenant_id, "discount_code": discount_code}`.  The
`discount_code` argument is the Python value passed by the caller, which
the detail-composition service may pass as `None`; hence `Option`. -/
def make_store_query_filter (tenant_id : String) (discount_code : Option String) :
    StoreQueryFilter :=
  { tenant_id := some (some tenant_id), discount_code := some discount_code }

/-- `DiscountStoreMasterRepository.__get_shard_key` (lines 173-187):
`"-".join([document.tenant_id])`, i.e. the document's tenant id alone. -/
def store_shard_key (tenant_id : String) : String :=
  tenant_id

/-- `DiscountStoreMasterRepository.create_discount_store_async`
(lines 33-54): assigns the repository's `tenant_id` and the shard key,
inserts, and returns the document. -/
def create_discount_store_repo (tenant_id : String) (document : DiscountStoreMasterDocument)
    (s : List DiscountStoreMasterDocument) :
    Except AppError DiscountStoreMasterDocument × List DiscountStoreMasterDocument :=
  let doc := { document with
    tenant_id := some tenant_id
    shard_key := some (store_shard_key tenant_id) }
  (Except.ok doc, insert_doc doc s)

/-- `DiscountStoreMasterRepository.get_discount_store_by_code_async`
(lines 56-66): `get_one_async` with the tenant-and-code filter. -/
def get_discount_store_by_code (tenant_id : String) (discount_code : Option String)
    (s : List DiscountStoreMasterDocument) : Option DiscountStoreMasterDocument :=
  find_one (make_store_query_filter tenant_id discount_code).matches s

/-- `DiscountStoreMasterRepository.get_discount_store_by_filter_paginated_async`
(lines 89-108): sets `query_filter["tenant_id"] = self.tenant_id` on the
caller's filter, then delegates to `get_paginated_list_async`. -/
def get_discount_store_by_filter_paginated (tenant_id : String) (query_filter : StoreQueryFilter)
    (limit page : ℕ) (le : DiscountStoreMasterDocument → DiscountStoreMasterDocument → Bool)
    (s : List DiscountStoreMasterDocument) : PaginatedResult DiscountStoreMasterDocument :=
  get_paginated_list { query_filter with tenant_id := some (some tenant_id) }.matches
    limit page le s

/-- Partial update payload for the discount store collection (spec 4.1:
"update(code, partial_fields): applies a partial field merge"); the
updatable fields are those of the update request (`store_code`,
`discount_value`, `description`). -/
structure StoreUpdateData where
  store_code : Option (Option String) := none
  discount_value : Option (Option ℚ) := none
  description : Option (Option String) := none
deriving DecidableEq, Repr

/-- Field merge of a partial update into a discount store document. -/
def apply_store_update (u : StoreUpdateData) (d : DiscountStoreMasterDocument) :
    DiscountStoreMasterDocument :=
  { d with
    store_code := u.store_code.getD d.store_code
    discount_value := u.discount_value.getD d.discount_value
    description := u.description.getD d.description }

/-- `DiscountStoreMasterRepository.update_discount_store_async`
(lines 110-128): `update_one_async` with the tenant-and-code filter; on
success re-reads the document by code (which may be `None` in Python),
otherwise raises a bare `Exception`. -/
def update_discount_store_repo (tenant_id : String) (discount_code : Option String)
    (update_data : StoreUpdateData) (s : List DiscountStoreMasterDocument) :
    Except AppError (Option DiscountStoreMasterDocument) × List DiscountStoreMasterDocument :=
  let r := update_first (make_store_query_filter tenant_id discount_code).matches
    (apply_store_update update_data) s
  if r.1 then (Except.ok (get_discount_store_by_code tenant_id discount_code r.2), r.2)
  else (Except.error AppError.genericError, s)

/-- `DiscountStoreMasterRepository.delete_discount_store_async`
(lines 149-159): `delete_async` with the tenant-and-code filter. -/
def delete_discount_store_repo (tenant_id : String) (discount_code : Option String)
    (s : List DiscountStoreMasterDocument) : Bool × List DiscountStoreMasterDocument :=
  delete_first (make_store_query_filter tenant_id discount_code).matches s

/-! ### Category discount repository (`category_discount_master_repository.py`) -/

/-- A MongoDB equality query filter over the category discount
collection. -/
structure CategoryQueryFilter where
  tenant_id : Option (Option String) := none
  category_code : Option (Option String) := none
  store_code : Option (Option String) := none
deriving DecidableEq, Repr

/-- MongoDB equality matching of a category discount document against a
query filter. -/
def CategoryQueryFilter.matches (f : CategoryQueryFilter) (d : CategoryDiscountMasterDocument) : Bool :=
  (match f.tenant_id with | none => true | some v => decide (d.tenant_id = v)) &&
  (match f.category_code with | none => true | some v => decide (d.category_code = v)) &&
  (match f.store_code with | none => true | some v => decide (d.store_code = v))

/-- `CategoryDiscountMasterRepository.__make_query_filter` (lines 156-168):
`{"tenant_id": self.tenant_id, "category_code": category_code}`. -/
def make_category_query_filter (tenant_id : String) (category_code : Option String) :
    CategoryQueryFilter :=
  { tenant_id := some (some tenant_id), category_code := some category_code }

/-- `CategoryDiscountMasterRepository.create_category_discount_async`
(lines 33-51): assigns the repository's `tenant_id` and the shard key
(`"-".join([document.tenant_id])`), inserts, and returns the document. -/
def create_category_discount_repo (tenant_id : String) (document : CategoryDiscountMasterDocument)
    (s : List CategoryDiscountMasterDocument) :
    Except AppError CategoryDiscountMasterDocument × List CategoryDiscountMasterDocument :=
  let doc := { document with
    tenant_id := some tenant_id
    shard_key := some tenant_id }
  (Except.ok doc, insert_doc doc s)

/-- `CategoryDiscountMasterRepository.get_category_discount_by_code_async`
(lines 53-63). -/
def get_category_discount_by_code (tenant_id : String) (category_code : Option String)
    (s : List CategoryDiscountMasterDocument) : Option CategoryDiscountMasterDocument :=
  find_one (make_category_query_filter tenant_id category_code).matches s

/-- `CategoryDiscountMasterRepository.get_category_discount_by_filter_paginated_async`
(lines 86-106): sets `query_filter["tenant_id"] = self.tenant_id`, then
delegates to `get_paginated_list_async`. -/
def get_category_discount_by_filter_paginated (tenant_id : String)
    (query_filter : CategoryQueryFilter) (limit page : ℕ)
    (le : CategoryDiscountMasterDocument → CategoryDiscountMasterDocument → Bool)
    (s : List CategoryDiscountMasterDocument) : PaginatedResult CategoryDiscountMasterDocument :=
  get_paginated_list { query_filter with tenant_id := some (some tenant_id) }.matches
    limit page le s

/-- Partial update payload for the category discount collection; the
updatable fields are `store_code`, `discount_code`, `description`,
`description_short`. -/
structure CategoryUpdateData where
  store_code : Option (Option String) := none
  discount_code : Option (Option String) := none
  description : Option (Option String) := none
  description_short : Option (Option String) := none
deriving DecidableEq, Repr

/-- Field merge of a partial update into a category discount document. -/
def apply_category_update (u : CategoryUpdateData) (d : CategoryDiscountMasterDocument) :
    CategoryDiscountMasterDocument :=
  { d with
    store_code := u.store_code.getD d.store_code
    discount_code := u.discount_code.getD d.discount_code
    description := u.description.getD d.description
    description_short := u.description_short.getD d.description_short }

/-- `CategoryDiscountMasterRepository.update_category_discount_async`
(lines 108-123). -/
def update_category_discount_repo (tenant_id : String) (category_code : Option String)
    (update_data : CategoryUpdateData) (s : List CategoryDiscountMasterDocument) :
    Except AppError (Option CategoryDiscountMasterDocument) × List CategoryDiscountMasterDocument :=
  let r := update_first (make_category_query_filter tenant_id category_code).matches
    (apply_category_update update_data) s
  if r.1 then (Except.ok (get_category_discount_by_code tenant_id category_code r.2), r.2)
  else (Except.error AppError.genericError, s)

/-- `CategoryDiscountMasterRepository.delete_category_discount_async`
(lines 144-154). -/
def delete_category_discount_repo (tenant_id : String) (category_code : Option String)
    (s : List CategoryDiscountMasterDocument) : Bool × List CategoryDiscountMasterDocument :=
  delete_first (make_category_query_filter tenant_id category_code).matches s

/-! ### Discount store service (`discount_store_master_service.py`) -/

/-- `DiscountStoreMasterService.create_discount_store_async`
(lines 30-61): existence pre-check by code — raise
`DocumentAlreadyExistsException` if a document with the code exists —
then build the document from the arguments and delegate to the
repository create. -/
def create_discount_store_service (tenant_id : String) (discount_code store_code : String)
    (discount_value : Option ℚ) (description : String)
    (s : List DiscountStoreMasterDocument) :
    Except AppError DiscountStoreMasterDocument × List DiscountStoreMasterDocument :=
  match get_discount_store_by_code tenant_id (some discount_code) s with
  | some _ => (Except.error AppError.documentAlreadyExists, s)
  | none =>
    let doc : DiscountStoreMasterDocument :=
      { discount_code := some discount_code
        store_code := some store_code
        discount_value := discount_value
        description := some description }
    create_discount_store_repo tenant_id doc s

/-- `DiscountStoreMasterService.get_discount_store_by_code_async`
(lines 63-81): raise `DocumentNotFoundException` when the repository
lookup returns `None`. -/
def get_discount_store_service (tenant_id : String) (discount_code : String)
    (s : List DiscountStoreMasterDocument) : Except AppError DiscountStoreMasterDocument :=
  match get_discount_store_by_code tenant_id (some discount_code) s with
  | none => Except.error AppError.documentNotFound
  | some d => Except.ok d

/-- `DiscountStoreMasterService.update_discount_store_async`
(lines 111-134): existence pre-check — raise
`DocumentNotFoundException` when absent — then delegate to the
repository update. -/
def update_discount_store_service (tenant_id : String) (discount_code : String)
    (update_data : StoreUpdateData) (s : List DiscountStoreMasterDocument) :
    Except AppError (Option DiscountStoreMasterDocument) × List DiscountStoreMasterDocument :=
  match get_discount_store_by_code tenant_id (some discount_code) s with
  | none => (Except.error AppError.documentNotFound, s)
  | some _ => update_discount_store_repo tenant_id (some discount_code) update_data s

/-- `DiscountStoreMasterService.delete_discount_store_async`
(lines 136-154): existence pre-check — raise
`DocumentNotFoundException` when absent — then delegate to the
repository delete. -/
def delete_discount_store_service (tenant_id : String) (discount_code : String)
    (s : List DiscountStoreMasterDocument) :
    Except AppError Unit × List DiscountStoreMasterDocument :=
  match get_discount_store_by_code tenant_id (some discount_code) s with
  | none => (Except.error AppError.documentNotFound, s)
  | some _ =>
    let r := delete_discount_store_repo tenant_id (some discount_code) s
    (Except.ok (), r.2)

/-! ### Category discount service (`category_discount_master_service.py`) -/

/-- The two collections the category discount service operates on. -/
structure MasterState where
  category_discounts : List CategoryDiscountMasterDocument := []
  store_discounts : List DiscountStoreMasterDocument := []
deriving DecidableEq, Repr

/-- `CategoryDiscountMasterService.create_category_discount_async`
(lines 40-71): existence pre-check by `category_code` — raise
`DocumentAlreadyExistsException` if present — then build the document
and delegate to the repository create. -/
def create_category_discount_service (tenant_id : String)
    (category_code store_code description discount_code : String) (s : MasterState) :
    Except AppError CategoryDiscountMasterDocument × MasterState :=
  match get_category_discount_by_code tenant_id (some category_code) s.category_discounts with
  | some _ => (Except.error AppError.documentAlreadyExists, s)
  | none =>
    let doc : CategoryDiscountMasterDocument :=
      { category_code := some category_code
        store_code := some store_code
        description := some description
        discount_code := some discount_code }
    let r := create_category_discount_repo tenant_id doc s.category_discounts
    (r.1, { s with category_discounts := r.2 })

/-- `CategoryDiscountMasterService.update_category_discount_async`
(lines 122-145): existence pre-check — raise
`DocumentNotFoundException` when absent — then delegate to the
repository update. -/
def update_category_discount_service (tenant_id : String) (category_code : String)
    (update_data : CategoryUpdateData) (s : MasterState) :
    Except AppError (Option CategoryDiscountMasterDocument) × MasterState :=
  match get_category_discount_by_code tenant_id (some category_code) s.category_discounts with
  | none => (Except.error AppError.documentNotFound, s)
  | some _ =>
    let r := update_category_discount_repo tenant_id (some category_code)
      update_data s.category_discounts
    (r.1, { s with category_discounts := r.2 })

/-- `CategoryDiscountMasterService.delete_category_discount_async`
(lines 194-211): existence pre-check — raise
`DocumentNotFoundException` when absent — then delegate to the
repository delete. -/
def delete_category_discount_service (tenant_id : String) (category_code : String)
    (s : MasterState) : Except AppError Unit × MasterState :=
  match get_category_discount_by_code tenant_id (some category_code) s.category_discounts with
  | none => (Except.error AppError.documentNotFound, s)
  | some _ =>
    let r := delete_category_discount_repo tenant_id (some category_code) s.category_discounts
    (Except.ok (), { s with category_discounts := r.2 })

/-- `CategoryDiscountMasterService.get_category_discount_detail_by_code_async`
(lines 147-192): start from a default detail document; if the category
discount is absent, return the default document (soft miss, no error);
otherwise copy its identifying fields, resolve its `discount_code`
against the discount store repository, raising
`DocumentNotFoundException` when that is absent, and copy
`discount_value` from the resolved store discount. -/
def get_category_discount_detail_service (tenant_id : String) (category_code : String)
    (s : MasterState) : Except AppError CategoryDiscountDetailDocument :=
  let detail : CategoryDiscountDetailDocument := {}
  match get_category_discount_by_code tenant_id (some category_code) s.category_discounts with
  | none => Except.ok detail
  | some cat =>
    let detail := { detail with
      tenant_id := cat.tenant_id
      category_code := cat.category_code
      store_code := cat.store_code
      discount_code := cat.discount_code
      description := cat.description }
    match get_discount_store_by_code tenant_id cat.discount_code s.store_discounts with
    | none => Except.error AppError.documentNotFound
    | some disc => Except.ok { detail with discount_value := disc.discount_value }

/-! ### Item-book nested editor

`app/api/v1/item_book_master.py` passes every nested mutation straight to
`service.<op>_async`; the item-book service and repository modules are not
part of the extracted sources, so the operations below are modelled from
the spec, sections 3 and 4.3: each operation follows
load → locate by key → mutate copy → persist whole document, with a
`NotFound` error identifying the missing level and no persistence on
failure. -/

/-- The level of the item-book tree an error refers to. -/
inductive ItemBookLevel where
  | book
  | category
  | tab
  | button
deriving DecidableEq, Repr

/-- Errors of the item-book nested editor: `NotFound` and `AlreadyExists`,
each identifying the level at which the lookup or collision happened. -/
inductive ItemBookError where
  | notFound (level : ItemBookLevel)
  | alreadyExists (level : ItemBookLevel)
deriving DecidableEq, Repr

/-- Modelled from the spec: a Button has "a position (pos_x, pos_y)
acting as a composite key within a tab, plus item reference and display
attributes" (the latter embedded as `item_code` and `title`). -/
structure ItemBookButton where
  pos_x : Int
  pos_y : Int
  item_code : Option String := none
  title : Option String := none
deriving DecidableEq, Repr

/-- Modelled from the spec: a Tab has "a tab_number (key within
category) and an ordered list of Button", plus its own display fields
(embedded as `title`). -/
structure ItemBookTab where
  tab_number : Int
  title : Option String := none
  buttons : List ItemBookButton := []
deriving DecidableEq, Repr

/-- Modelled from the spec: a Category has "a category_number (key
within item book) and an ordered list of Tab", plus its own display
fields (embedded as `title`). -/
structure ItemBookCategory where
  category_number : Int
  title : Option String := none
  tabs : List ItemBookTab := []
deriving DecidableEq, Repr

/-- Modelled from the spec: an ItemBook with "tenant_id, item_book_id
(key), title, ordered list of Category". -/
structure ItemBookDocument where
  tenant_id : Option String := none
  item_book_id : String
  title : Option String := none
  categories : List ItemBookCategory := []
deriving DecidableEq, Repr

/-- Replace the first element satisfying the predicate. -/
def replace_first (p : α → Bool) (x : α) : List α → List α
  | [] => []
  | d :: ds => if p d then x :: ds else d :: replace_first p x ds

/-- Tenant-scoped lookup of an item book by id (the "load" step of the
read-modify-write pattern). -/
def find_item_book (tenant_id item_book_id : String) (s : List ItemBookDocument) :
    Option ItemBookDocument :=
  s.find? fun b => decide (b.tenant_id = some tenant_id ∧ b.item_book_id = item_book_id)

/-- Modelled from the spec: the read-modify-write skeleton shared by all
nested mutations — load the book (else `NotFound` at the book level),
apply the in-memory edit, and persist the whole document only when the
edit succeeded; on any failure the stored state is unchanged. -/
def edit_item_book (tenant_id item_book_id : String)
    (f : ItemBookDocument → Except ItemBookError ItemBookDocument)
    (s : List ItemBookDocument) : Except ItemBookError ItemBookDocument × List ItemBookDocument :=
  match find_item_book tenant_id item_book_id s with
  | none => (Except.error (ItemBookError.notFound ItemBookLevel.book), s)
  | some b =>
    match f b with
    | Except.error e => (Except.error e, s)
    | Except.ok b2 =>
      (Except.ok b2,
        replace_first (fun x => decide (x.tenant_id = some tenant_id ∧ x.item_book_id = item_book_id)) b2 s)

/-- Locate the category addressed by `category_number` inside a book and
apply an edit to it (else `NotFound` at the category level). -/
def edit_category_in_book (category_number : Int)
    (f : ItemBookCategory → Except ItemBookError ItemBookCategory)
    (b : ItemBookDocument) : Except ItemBookError ItemBookDocument :=
  match b.categories.find? (fun c => decide (c.category_number = category_number)) with
  | none => Except.error (ItemBookError.notFound ItemBookLevel.category)
  | some c =>
    match f c with
    | Except.error e => Except.error e
    | Except.ok c2 =>
      Except.ok { b with
        categories := replace_first (fun x => decide (x.category_number = category_number)) c2 b.categories }

/-- Locate the tab addressed by `tab_number` inside a category and apply
an edit to it (else `NotFound` at the tab level). -/
def edit_tab_in_category (tab_number : Int)
    (f : ItemBookTab → Except ItemBookError ItemBookTab)
    (c : ItemBookCategory) : Except ItemBookError ItemBookCategory :=
  match c.tabs.find? (fun t => decide (t.tab_number = tab_number)) with
  | none => Except.error (ItemBookError.notFound ItemBookLevel.tab)
  | some t =>
    match f t with
    | Except.error e => Except.error e
    | Except.ok t2 =>
      Except.ok { c with
        tabs := replace_first (fun x => decide (x.tab_number = tab_number)) t2 c.tabs }

/-- Modelled from the spec: `create_item_book` — a book "created empty
or with initial categories" and inserted under the repository's
tenant. -/
def create_item_book (tenant_id item_book_id : String) (title : Option String)
    (categories : List ItemBookCategory) (s : List ItemBookDocument) :
    Except ItemBookError ItemBookDocument × List ItemBookDocument :=
  let book : ItemBookDocument :=
    { tenant_id := some tenant_id, item_book_id := item_book_id
      title := title, categories := categories }
  (Except.ok book, s ++ [book])

/-- Modelled from the spec: `add_category(book_id, category)` — append;
the category_number "must not already exist in the book — else
AlreadyExists". -/
def add_category_to_item_book (tenant_id item_book_id : String) (category : ItemBookCategory)
    (s : List ItemBookDocument) : Except ItemBookError ItemBookDocument × List ItemBookDocument :=
  edit_item_book tenant_id item_book_id (fun b =>
    if b.categories.any (fun c => decide (c.category_number = category.category_number)) then
      Except.error (ItemBookError.alreadyExists ItemBookLevel.category)
    else
      Except.ok { b with categories := b.categories ++ [category] }) s

/-- Modelled from the spec: `update_category(book_id, category_number)`
— "replace category fields in place; category must exist — else
NotFound".  The category's own fields are replaced; its key and its
owned tab list (mutated through the tab operations) are kept. -/
def update_category_in_item_book (tenant_id item_book_id : String) (category_number : Int)
    (category : ItemBookCategory) (s : List ItemBookDocument) :
    Except ItemBookError ItemBookDocument × List ItemBookDocument :=
  edit_item_book tenant_id item_book_id
    (edit_category_in_book category_number (fun c =>
      Except.ok { c with title := category.title })) s

/-- Modelled from the spec: `delete_category(book_id, category_number)`
— "remove matching category (and its entire tab/button subtree)". -/
def delete_category_from_item_book (tenant_id item_book_id : String) (category_number : Int)
    (s : List ItemBookDocument) : Except ItemBookError ItemBookDocument × List ItemBookDocument :=
  edit_item_book tenant_id item_book_id (fun b =>
    match b.categories.find? (fun c => decide (c.category_number = category_number)) with
    | none => Except.error (ItemBookError.notFound ItemBookLevel.category)
    | some _ =>
      Except.ok { b with
        categories := b.categories.eraseP (fun c => decide (c.category_number = category_number)) }) s

/-- Modelled from the spec: `add_tab` — "same pattern one level down,
keyed by (category_number, tab_number)": append to the addressed
category; `AlreadyExists` on a tab_number collision. -/
def add_tab_to_category_in_item_book (tenant_id item_book_id : String) (category_number : Int)
    (tab : ItemBookTab) (s : List ItemBookDocument) :
    Except ItemBookError ItemBookDocument × List ItemBookDocument :=
  edit_item_book tenant_id item_book_id
    (edit_category_in_book category_number (fun c =>
      if c.tabs.any (fun t => decide (t.tab_number = tab.tab_number)) then
        Except.error (ItemBookError.alreadyExists ItemBookLevel.tab)
      else
        Except.ok { c with tabs := c.tabs ++ [tab] })) s

/-- Modelled from the spec: `update_tab` — replace the addressed tab's
own fields in place, keeping its key and its owned button list. -/
def update_tab_in_category_in_item_book (tenant_id item_book_id : String)
    (category_number tab_number : Int) (tab : ItemBookTab) (s : List ItemBookDocument) :
    Except ItemBookError ItemBookDocument × List ItemBookDocument :=
  edit_item_book tenant_id item_book_id
    (edit_category_in_book category_number
      (edit_tab_in_category tab_number (fun t =>
        Except.ok { t with title := tab.title }))) s

/-- Modelled from the spec: `delete_tab` — remove the addressed tab (and
its button subtree). -/
def delete_tab_from_category_in_item_book (tenant_id item_book_id : String)
    (category_number tab_number : Int) (s : List ItemBookDocument) :
    Except ItemBookError ItemBookDocument × List ItemBookDocument :=
  edit_item_book tenant_id item_book_id
    (edit_category_in_book category_number (fun c =>
      match c.tabs.find? (fun t => decide (t.tab_number = tab_number)) with
      | none => Except.error (ItemBookError.notFound ItemBookLevel.tab)
      | some _ =>
        Except.ok { c with tabs := c.tabs.eraseP (fun t => decide (t.tab_number = tab_number)) })) s

/-- Modelled from the spec: `add_button` — "same pattern two levels
down, keyed by (category_number, tab_number, pos_x, pos_y).  Button
identity is purely positional — two buttons cannot share (pos_x, pos_y)
within a tab"; append, with `AlreadyExists` on a position collision. -/
def add_button_to_tab_in_category_in_item_book (tenant_id item_book_id : String)
    (category_number tab_number : Int) (button : ItemBookButton) (s : List ItemBookDocument) :
    Except ItemBookError ItemBookDocument × List ItemBookDocument :=
  edit_item_book tenant_id item_book_id
    (edit_category_in_book category_number
      (edit_tab_in_category tab_number (fun t =>
        if t.buttons.any (fun b => decide (b.pos_x = button.pos_x ∧ b.pos_y = button.pos_y)) then
          Except.error (ItemBookError.alreadyExists ItemBookLevel.button)
        else
          Except.ok { t with buttons := t.buttons ++ [button] }))) s

/-- Modelled from the spec: `update_button` — replace the non-key fields
of the button addressed by (pos_x, pos_y); the positional key, being the
button's identity within the tab, is taken from the address. -/
def update_button_in_tab_in_category_in_item_book (tenant_id item_book_id : String)
    (category_number tab_number : Int) (pos_x pos_y : Int) (button : ItemBookButton)
    (s : List ItemBookDocument) : Except ItemBookError ItemBookDocument × List ItemBookDocument :=
  edit_item_book tenant_id item_book_id
    (edit_category_in_book category_number
      (edit_tab_in_category tab_number (fun t =>
        match t.buttons.find? (fun b => decide (b.pos_x = pos_x ∧ b.pos_y = pos_y)) with
        | none => Except.error (ItemBookError.notFound ItemBookLevel.button)
        | some _ =>
          Except.ok { t with
            buttons := replace_first (fun b => decide (b.pos_x = pos_x ∧ b.pos_y = pos_y))
              { button with pos_x := pos_x, pos_y := pos_y } t.buttons }))) s

/-- Modelled from the spec: `delete_button` — remove the button
addressed by (pos_x, pos_y). -/
def delete_button_from_tab_in_category_in_item_book (tenant_id item_book_id : String)
    (category_number tab_number : Int) (pos_x pos_y : Int) (s : List ItemBookDocument) :
    Except ItemBookError ItemBookDocument × List ItemBookDocument :=
  edit_item_book tenant_id item_book_id
    (edit_category_in_book category_number
      (edit_tab_in_category tab_number (fun t =>
        match t.buttons.find? (fun b => decide (b.pos_x = pos_x ∧ b.pos_y = pos_y)) with
        | none => Except.error (ItemBookError.notFound ItemBookLevel.button)
        | some _ =>
          Except.ok { t with
            buttons := t.buttons.eraseP (fun b => decide (b.pos_x = pos_x ∧ b.pos_y = pos_y)) }))) s

/-! ### Button positional uniqueness invariant (spec, section 3) -/

/-- No two buttons of the tab share the same (pos_x, pos_y). -/
def tab_buttons_unique (t : ItemBookTab) : Prop :=
  t.buttons.Pairwise fun a b => ¬(a.pos_x = b.pos_x ∧ a.pos_y = b.pos_y)

/-- Every tab of the category satisfies `tab_buttons_unique`. -/
def category_buttons_unique (c : ItemBookCategory) : Prop :=
  ∀ t ∈ c.tabs, tab_buttons_unique t

/-- Every tab of every category of the book satisfies
`tab_buttons_unique`. -/
def book_buttons_unique (b : ItemBookDocument) : Prop :=
  ∀ c ∈ b.categories, category_buttons_unique c

/-- Every reachable book of the stored state satisfies
`book_buttons_unique`. -/
def state_buttons_unique (s : List ItemBookDocument) : Prop :=
  ∀ b ∈ s, book_buttons_unique b

instance : DecidablePred tab_buttons_unique := fun t =>
  inferInstanceAs (Decidable (t.buttons.Pairwise _))

instance : DecidablePred category_buttons_unique := fun c =>
  inferInstanceAs (Decidable (∀ t ∈ c.tabs, tab_buttons_unique t))

instance : DecidablePred book_buttons_unique := fun b =>
  inferInstanceAs (Decidable (∀ c ∈ b.categories, category_buttons_unique c))

instance : DecidablePred state_buttons_unique := fun s =>
  inferInstanceAs (Decidable (∀ b ∈ s, book_buttons_unique b))

/-! ### Cart-side web repository
(`services/cart/app/models/repositories/category_discount_detail_web_repository.py`) -/

/-- `services/cart/app/models/documents/category_discount_details_document.py`:
the cart-side `CategoryDiscountDetailsDocument`. -/
structure CategoryDiscountDetailsDocument where
  tenant_id : Option String := none
  category_code : Option String := none
  store_code : Option String := none
  discount_code : Option String := none
  description : Option String := none
  description_short : Option String := none
  discount_value : Option ℚ := none
deriving DecidableEq, Repr

/-- Outcome of the upstream HTTP GET against the master-data detail
endpoint, as seen by the web repository: either parsed response data
from which the document is constructed, or an exception carrying an
HTTP status code. -/
inductive HttpFetchResult where
  | success (doc : CategoryDiscountDetailsDocument)
  | httpError (status_code : ℕ)
deriving DecidableEq, Repr

/-- `CategoryDiscountDetailWebRepository.get_category_discount_detail_by_code_async`
(lines 73-129): normalise a `None` cache to the empty list; scan the
cache for an entry whose `category_code` equals the requested code and
return it if found; otherwise issue the HTTP request (embedded as the
oracle `fetch`), translating a 404 into `NotFoundException` and any
other failure into `RepositoryException`, and on success append the
fetched document to the cache and return it.  The result pairs the
returned value with the repository's cache afterwards. -/
def web_get_category_discount_detail (fetch : String → HttpFetchResult)
    (category_code : String) (cache0 : Option (List CategoryDiscountDetailsDocument)) :
    Except AppError CategoryDiscountDetailsDocument × Option (List CategoryDiscountDetailsDocument) :=
  let cache := cache0.getD []
  match cache.find? (fun item => decide (item.category_code = some category_code)) with
  | some item => (Except.ok item, some cache)
  | none =>
    match fetch category_code with
    | HttpFetchResult.httpError status =>
      if status = 404 then (Except.error AppError.documentNotFound, some cache)
      else (Except.error AppError.repositoryError, some cache)
    | HttpFetchResult.success doc =>
      (Except.ok doc, some (cache ++ [doc]))

/-! ### The `get_category_discount_detail` endpoint
(`app/api/v1/category_discount_master.py`, lines 211-262) -/

/-- The uniform response envelope (`kugel_common.schemas.api_response.ApiResponse`)
restricted to the fields the endpoint sets. -/
structure ApiResponseEnvelope (α : Type) where
  success : Bool
  code : ℕ
  message : String
  data : Option α
deriving DecidableEq, Repr

/-- Python truthiness of a pydantic document instance: `BaseModel`
defines neither a bool conversion nor a length, so every instance —
including a detail document with every field `None` — is truthy. -/
def pydantic_instance_truthy (_d : CategoryDiscountDetailDocument) : Bool :=
  true

/-- Modelled from the spec: the schema transformation of the detail
document into the response DTO (`SchemasTransformerV1
.transform_category_discount_detail`, whose module is not part of the
extracted sources; the spec treats DTO mapping as a generic field
copy).  It always returns a constructed response object. -/
def transform_category_discount_detail (d : CategoryDiscountDetailDocument) :
    CategoryDiscountDetailDocument :=
  d

/-- `get_category_discount_detail` (lines 223-262): call the service;
exceptions propagate.  On a non-exception return, transform the result
when it is truthy, and build the envelope: the then-branch uses the
"found" message with the transformed payload, the else-branch the "not
found" message with null data; both set success True and code 200. -/
def get_category_discount_detail_endpoint (tenant_id category_code : String)
    (s : MasterState) : Except AppError (ApiResponseEnvelope CategoryDiscountDetailDocument) :=
  match get_category_discount_detail_service tenant_id category_code s with
  | Except.error e => Except.error e
  | Except.ok category_discount_detail =>
    let return_category_discount_detail : Option CategoryDiscountDetailDocument :=
      if pydantic_instance_truthy category_discount_detail then
        some (transform_category_discount_detail category_discount_detail)
      else none
    match return_category_discount_detail with
    | some payload =>
      Except.ok
        { success := true, code := 200
          message := "Category " ++ category_code ++ " found successfully for tenant_id: " ++ tenant_id
          data := some payload }
    | none =>
      Except.ok
        { success := true, code := 200
          message := "Category " ++ category_code ++ " not found for tenant_id: " ++ tenant_id
          data := none }

/-! ### Concrete sample data used by the witness theorems -/

/-- A category discount for tenant "T1" with category code "C1"
referencing discount code "D1". -/
def sample_category_discount : CategoryDiscountMasterDocument :=
  { tenant_id := some "T1"
    category_code := some "C1"
    store_code := some "S1"
    discount_code := some "D1"
    description := some "cat" }

/-- A store discount for tenant "T1" with discount code "D1" and value
20. -/
def sample_store_discount : DiscountStoreMasterDocument :=
  { tenant_id := some "T1"
    store_code := some "S1"
    discount_code := some "D1"
    discount_value := some 20
    description := some "disc"
    shard_key := some "T1" }

/-- The sample store discount after an update that wrote the
out-of-range discount_value 100.01. -/
def sample_store_discount_out_of_range : DiscountStoreMasterDocument :=
  { tenant_id := some "T1"
    store_code := some "S1"
    discount_code := some "D1"
    discount_value := some (10001/100)
    description := some "disc"
    shard_key := some "T1" }

/-- Both sample documents present. -/
def sample_master_state : MasterState :=
  { category_discounts := [sample_category_discount]
    store_discounts := [sample_store_discount] }

/-- The sample category discount present but no store discounts. -/
def sample_master_state_no_store : MasterState :=
  { category_discounts := [sample_category_discount]
    store_discounts := [] }

/-- A sample tab with one button at position (2, 3). -/
def sample_item_book_tab : ItemBookTab :=
  { tab_number := 1
    title := some "tabA"
    buttons := [{ pos_x := 2, pos_y := 3, item_code := some "I1" }] }

/-- A sample category, number 1, holding the sample tab. -/
def sample_item_book_category : ItemBookCategory :=
  { category_number := 1
    title := some "catA"
    tabs := [sample_item_book_tab] }

/-- A sample item book "B1" of tenant "T1" holding the sample
category. -/
def sample_item_book : ItemBookDocument :=
  { tenant_id := some "T1"
    item_book_id := "B1"
    title := some "book"
    categories := [sample_item_book_category] }

/-! ## Helper lemmas -/

theorem find_one_matches {m : α → Bool} {s : List α} {d : α}
    (h : find_one m s = some d) : m d = true :=
  List.find?_some h

theorem find_one_mem {m : α → Bool} {s : List α} {d : α}
    (h : find_one m s = some d) : d ∈ s :=
  List.mem_of_find?_eq_some h

theorem mem_update_first_of_not_matches {m : α → Bool} {u : α → α} {x : α} :
    ∀ {s : List α}, x ∈ s → m x = false → x ∈ (update_first m u s).2 := by
  intro s
  induction s with
  | nil => intro h; cases h
  | cons d ds ih =>
    intro hx hm
    rcases List.mem_cons.mp hx with rfl | hx
    · simp only [update_first, hm, if_false]
      exact List.mem_cons_self _ _
    · by_cases hd : m d
      · simp only [update_first, hd, if_true]
        exact List.mem_cons_of_mem _ hx
      · simp only [update_first, hd, if_false]
        exact List.mem_cons_of_mem _ (ih hx hm)

theorem update_first_success_find {m : α → Bool} {u : α → α}
    (hpres : ∀ x, m x = true → m (u x) = true) :
    ∀ {s : List α} {d : α}, s.find? m = some d →
      (update_first m u s).1 = true ∧ (update_first m u s).2.find? m = some (u d) := by
  intro s
  induction s with
  | nil => intro d h; cases h
  | cons x xs ih =>
    intro d h
    cases hm : m x with
    | true =>
      rw [List.find?_cons_of_pos _ hm] at h
      injection h with h2
      subst h2
      constructor
      · simp [update_first, hm]
      · simp only [update_first, hm, if_true]
        exact List.find?_cons_of_pos _ (hpres x hm)
    | false =>
      rw [List.find?_cons_of_neg _ (by simp [hm])] at h
      obtain ⟨ih1, ih2⟩ := ih h
      constructor
      · simp [update_first, hm, ih1]
      · simp only [update_first, hm, Bool.false_eq_true, if_false]
        rw [List.find?_cons_of_neg _ (by simp [hm])]
        exact ih2

theorem mem_delete_first_of_not_matches {m : α → Bool} {x : α} :
    ∀ {s : List α}, x ∈ s → m x = false → x ∈ (delete_first m s).2 := by
  intro s
  induction s with
  | nil => intro h; cases h
  | cons d ds ih =>
    intro hx hm
    rcases List.mem_cons.mp hx with rfl | hx
    · simp only [delete_first, hm, if_false]
      exact List.mem_cons_self _ _
    · by_cases hd : m d
      · simp only [delete_first, hd, if_true]
        exact hx
      · simp only [delete_first, hd, if_false]
        exact List.mem_cons_of_mem _ (ih hx hm)

theorem mem_replace_first {p : α → Bool} {a x : α} :
    ∀ {s : List α}, x ∈ replace_first p a s → x = a ∨ x ∈ s := by
  intro s
  induction s with
  | nil => intro h; cases h
  | cons d ds ih =>
    intro hx
    by_cases hd : p d
    · simp only [replace_first, hd, if_true] at hx
      rcases List.mem_cons.mp hx with rfl | hx
      · exact Or.inl rfl
      · exact Or.inr (List.mem_cons_of_mem _ hx)
    · simp only [replace_first, hd, if_false] at hx
      rcases List.mem_cons.mp hx with rfl | hx
      · exact Or.inr (List.mem_cons_self _ _)
      · rcases ih hx with h | h
        · exact Or.inl h
        · exact Or.inr (List.mem_cons_of_mem _ h)

/-! ## Theorems for the claims -/

/-- C2.  Category-discount detail composition error policy: when no
category discount with the requested code exists the service returns the
default detail document (every field `none`) without raising; when the
category discount exists but its `discount_code` resolves to no store
discount, the service raises `DocumentNotFoundException`. -/
theorem C2_detail_error_policy (tenant_id category_code : String) (s : MasterState) :
    (get_category_discount_by_code tenant_id (some category_code) s.category_discounts = none →
      get_category_discount_detail_service tenant_id category_code s =
        Except.ok ({} : CategoryDiscountDetailDocument) ∧
      ({} : CategoryDiscountDetailDocument).tenant_id = none ∧
      ({} : CategoryDiscountDetailDocument).category_code = none ∧
      ({} : CategoryDiscountDetailDocument).store_code = none ∧
      ({} : CategoryDiscountDetailDocument).discount_code = none ∧
      ({} : CategoryDiscountDetailDocument).description = none ∧
      ({} : CategoryDiscountDetailDocument).description_short = none ∧
      ({} : CategoryDiscountDetailDocument).discount_value = none) ∧
    (∀ cat,
      get_category_discount_by_code tenant_id (some category_code) s.category_discounts = some cat →
      get_discount_store_by_code tenant_id cat.discount_code s.store_discounts = none →
      get_category_discount_detail_service tenant_id category_code s =
        Except.error AppError.documentNotFound) := by
  constructor
  · intro h
    refine ⟨?_, rfl, rfl, rfl, rfl, rfl, rfl, rfl⟩
    simp only [get_category_discount_detail_service, h]
  · intro cat hcat hdisc
    simp only [get_category_discount_detail_service, hcat, hdisc]

/-- Witness for C2: on empty collections the detail call returns the
default document; with a category discount for "C1" referencing discount
code "D1" but no store discounts, it raises `NotFound`. -/
theorem C2_detail_error_policy_witness :
    get_category_discount_detail_service "T1" "C1" {} =
      Except.ok ({} : CategoryDiscountDetailDocument) ∧
    get_category_discount_detail_service "T1" "C1" sample_master_state_no_store =
      Except.error AppError.documentNotFound := by
  constructor
  · exact ((C2_detail_error_policy "T1" "C1" {}).1 rfl).1
  · exact (C2_detail_error_policy "T1" "C1" sample_master_state_no_store).2
      sample_category_discount (by decide) rfl

/-- C8.  Category-discount detail success postcondition: when the
category discount exists and its referenced store discount exists, the
returned detail document copies tenant_id, category_code, store_code,
discount_code and description from the category discount and
discount_value from the resolved store discount. -/
theorem C8_detail_success_postcondition (tenant_id category_code : String) (s : MasterState)
    (cat : CategoryDiscountMasterDocument) (disc : DiscountStoreMasterDocument)
    (hcat : get_category_discount_by_code tenant_id (some category_code) s.category_discounts =
      some cat)
    (hdisc : get_discount_store_by_code tenant_id cat.discount_code s.store_discounts = some disc) :
    get_category_discount_detail_service tenant_id category_code s =
      Except.ok
        { tenant_id := cat.tenant_id
          category_code := cat.category_code
          store_code := cat.store_code
          discount_code := cat.discount_code
          description := cat.description
          description_short := none
          discount_value := disc.discount_value } := by
  simp only [get_category_discount_detail_service, hcat, hdisc]

/-- Witness for C8 at a concrete two-collection state. -/
theorem C8_detail_success_postcondition_witness :
    get_category_discount_detail_service "T1" "C1" sample_master_state =
      Except.ok
        { tenant_id := some "T1"
          category_code := some "C1"
          store_code := some "S1"
          discount_code := some "D1"
          description := some "cat"
          description_short := none
          discount_value := some 20 } :=
  C8_detail_success_postcondition "T1" "C1" sample_master_state
    sample_category_discount sample_store_discount (by decide) (by decide)

/-- C3 counterexample: creating a store discount with
discount_value = 100.01 (and likewise -0.01) succeeds, and updating an
existing store discount to discount_value = 100.01 likewise succeeds and
persists the value — the service, the `DiscountStoreMasterDocument`
model and the update merge perform no range validation, so the
out-of-range value is accepted and persisted rather than rejected. -/
theorem C3_counterexample_discount_value_not_validated :
    create_discount_store_service "T1" "D1" "S1" (some (10001/100)) "d" [] =
      (Except.ok
        { tenant_id := some "T1", store_code := some "S1", discount_code := some "D1",
          discount_value := some (10001/100), description := some "d", shard_key := some "T1" },
       [{ tenant_id := some "T1", store_code := some "S1", discount_code := some "D1",
          discount_value := some (10001/100), description := some "d", shard_key := some "T1" }]) ∧
    create_discount_store_service "T1" "D1" "S1" (some (-1/100)) "d" [] =
      (Except.ok
        { tenant_id := some "T1", store_code := some "S1", discount_code := some "D1",
          discount_value := some (-1/100), description := some "d", shard_key := some "T1" },
       [{ tenant_id := some "T1", store_code := some "S1", discount_code := some "D1",
          discount_value := some (-1/100), description := some "d", shard_key := some "T1" }]) ∧
    update_discount_store_service "T1" "D1" { discount_value := some (some (10001/100)) }
        [sample_store_discount] =
      (Except.ok (some sample_store_discount_out_of_range),
       [sample_store_discount_out_of_range]) ∧
    sample_store_discount_out_of_range.discount_value = some (10001/100) := by
  refine ⟨rfl, rfl, rfl, rfl⟩

/-- C3 (amended).  The [0,100] range check on discount_value lives only
in `CategoryDiscountDetailDocument.validate_discount_value`, which
accepts 0.0, 50.0 and 100.0 and rejects -0.01 and 100.01; neither
constructing a `DiscountStoreMasterDocument` through the store discount
service create nor updating one through the service update performs any
range check: create stores any provided value, and update merges
whatever discount_value the caller supplies into the matched document
and returns it. -/
theorem C3_amended_range_validation :
    (validate_discount_value (some 0) = Except.ok (some 0) ∧
     validate_discount_value (some 50) = Except.ok (some 50) ∧
     validate_discount_value (some 100) = Except.ok (some 100) ∧
     validate_discount_value (some (-1/100)) = Except.error AppError.validationError ∧
     validate_discount_value (some (10001/100)) = Except.error AppError.validationError) ∧
    (∀ (tenant_id discount_code store_code desc : String) (v : Option ℚ)
        (s : List DiscountStoreMasterDocument),
      get_discount_store_by_code tenant_id (some discount_code) s = none →
      (create_discount_store_service tenant_id discount_code store_code v desc s).1 =
        Except.ok
          { tenant_id := some tenant_id, store_code := some store_code,
            discount_code := some discount_code, discount_value := v,
            description := some desc, shard_key := some tenant_id }) ∧
    (∀ (u : StoreUpdateData) (d : DiscountStoreMasterDocument) (v : Option ℚ),
      u.discount_value = some v → (apply_store_update u d).discount_value = v) ∧
    (∀ (tenant_id discount_code : String) (u : StoreUpdateData)
        (d : DiscountStoreMasterDocument) (s : List DiscountStoreMasterDocument),
      get_discount_store_by_code tenant_id (some discount_code) s = some d →
      update_discount_store_service tenant_id discount_code u s =
        (Except.ok (some (apply_store_update u d)),
         (update_first (make_store_query_filter tenant_id (some discount_code)).matches
           (apply_store_update u) s).2)) := by
  refine ⟨⟨rfl, rfl, rfl, by norm_num [validate_discount_value],
    by norm_num [validate_discount_value]⟩, ?_, ?_, ?_⟩
  · intro tenant_id discount_code store_code desc v s h
    simp only [create_discount_store_service, h, create_discount_store_repo, store_shard_key]
  · intro u d v h
    simp [apply_store_update, h]
  · intro tenant_id discount_code u d s h
    have hpres : ∀ x, (make_store_query_filter tenant_id (some discount_code)).matches x = true →
        (make_store_query_filter tenant_id (some discount_code)).matches
          (apply_store_update u x) = true :=
      fun x hx => hx
    have hf := update_first_success_find hpres h
    have hget : get_discount_store_by_code tenant_id (some discount_code)
        (update_first (make_store_query_filter tenant_id (some discount_code)).matches
          (apply_store_update u) s).2 = some (apply_store_update u d) := hf.2
    simp only [update_discount_store_service, h, update_discount_store_repo]
    rw [if_pos hf.1, hget]

/-- Witness for the amended C3: the service create accepts the
out-of-range value -0.01 on an empty collection, and the service update
merges the out-of-range value -0.01 into the existing sample store
discount. -/
theorem C3_amended_range_validation_witness :
    (create_discount_store_service "T1" "D1" "S1" (some (-1/100)) "d" []).1 =
      Except.ok
        { tenant_id := some "T1", store_code := some "S1", discount_code := some "D1",
          discount_value := some (-1/100), description := some "d", shard_key := some "T1" } ∧
    update_discount_store_service "T1" "D1" { discount_value := some (some (-1/100)) }
        [sample_store_discount] =
      (Except.ok (some (apply_store_update { discount_value := some (some (-1/100)) }
          sample_store_discount)),
       (update_first (make_store_query_filter "T1" (some "D1")).matches
         (apply_store_update { discount_value := some (some (-1/100)) })
         [sample_store_discount]).2) :=
  ⟨C3_amended_range_validation.2.1 "T1" "D1" "S1" "d" (some (-1/100)) [] rfl,
   C3_amended_range_validation.2.2.2 "T1" "D1" { discount_value := some (some (-1/100)) }
     sample_store_discount [sample_store_discount] (by decide)⟩

/-- C10.  The `get_category_discount_detail` endpoint's "not found"
else-branch is unreachable: whenever the service call returns without
raising, the endpoint response has success=True, code 200, non-null data
and the "found" message — even in the soft-miss case. -/
theorem C10_detail_endpoint_always_found (tenant_id category_code : String) (s : MasterState)
    (r : ApiResponseEnvelope CategoryDiscountDetailDocument)
    (h : get_category_discount_detail_endpoint tenant_id category_code s = Except.ok r) :
    r.success = true ∧ r.code = 200 ∧ r.data.isSome = true ∧
    r.message = "Category " ++ category_code ++ " found successfully for tenant_id: " ++ tenant_id := by
  unfold get_category_discount_detail_endpoint at h
  cases hs : get_category_discount_detail_service tenant_id category_code s with
  | error e => rw [hs] at h; cases h
  | ok d =>
    rw [hs] at h
    simp only [pydantic_instance_truthy, if_true, Except.ok.injEq] at h
    subst h
    exact ⟨rfl, rfl, rfl, rfl⟩

/-- Witness for C10: on empty collections (the soft-miss case) the
endpoint still produces the "found" envelope with a non-null payload. -/
theorem C10_detail_endpoint_always_found_witness :
    ({ success := true, code := 200,
       message := "Category " ++ "C1" ++ " found successfully for tenant_id: " ++ "T1",
       data := some ({} : CategoryDiscountDetailDocument) } :
        ApiResponseEnvelope CategoryDiscountDetailDocument).success = true ∧
    ({ success := true, code := 200,
       message := "Category " ++ "C1" ++ " found successfully for tenant_id: " ++ "T1",
       data := some ({} : CategoryDiscountDetailDocument) } :
        ApiResponseEnvelope CategoryDiscountDetailDocument).data.isSome = true :=
  ⟨(C10_detail_endpoint_always_found "T1" "C1" {} _ rfl).1,
   (C10_detail_endpoint_always_found "T1" "C1" {} _ rfl).2.2.1⟩

/-- C4.  Existence-check-then-mutate for the discount master services:
for every collection state and natural key, create raises
`AlreadyExists` (leaving the state unchanged, so the existing document
is never overwritten) when a document with that key exists under the
tenant; update and delete raise `NotFound` (state unchanged) when no
such document exists; when the precondition holds the operation
proceeds to the corresponding repository write. -/
theorem C4_existence_check_then_mutate (tenant_id : String) :
    (∀ (discount_code store_code desc : String) (v : Option ℚ)
        (s : List DiscountStoreMasterDocument),
      ((∃ d, get_discount_store_by_code tenant_id (some discount_code) s = some d) →
        create_discount_store_service tenant_id discount_code store_code v desc s =
          (Except.error AppError.documentAlreadyExists, s)) ∧
      (get_discount_store_by_code tenant_id (some discount_code) s = none →
        create_discount_store_service tenant_id discount_code store_code v desc s =
          create_discount_store_repo tenant_id
            { discount_code := some discount_code
              store_code := some store_code
              discount_value := v
              description := some desc } s)) ∧
    (∀ (discount_code : String) (u : StoreUpdateData) (s : List DiscountStoreMasterDocument),
      (get_discount_store_by_code tenant_id (some discount_code) s = none →
        update_discount_store_service tenant_id discount_code u s =
          (Except.error AppError.documentNotFound, s)) ∧
      ((∃ d, get_discount_store_by_code tenant_id (some discount_code) s = some d) →
        update_discount_store_service tenant_id discount_code u s =
          update_discount_store_repo tenant_id (some discount_code) u s)) ∧
    (∀ (discount_code : String) (s : List DiscountStoreMasterDocument),
      (get_discount_store_by_code tenant_id (some discount_code) s = none →
        delete_discount_store_service tenant_id discount_code s =
          (Except.error AppError.documentNotFound, s)) ∧
      ((∃ d, get_discount_store_by_code tenant_id (some discount_code) s = some d) →
        delete_discount_store_service tenant_id discount_code s =
          (Except.ok (), (delete_discount_store_repo tenant_id (some discount_code) s).2))) ∧
    (∀ (category_code store_code desc discount_code : String) (s : MasterState),
      ((∃ d, get_category_discount_by_code tenant_id (some category_code) s.category_discounts =
          some d) →
        create_category_discount_service tenant_id category_code store_code desc discount_code s =
          (Except.error AppError.documentAlreadyExists, s)) ∧
      (get_category_discount_by_code tenant_id (some category_code) s.category_discounts = none →
        (create_category_discount_service tenant_id category_code store_code desc discount_code
          s).2.category_discounts =
          (create_category_discount_repo tenant_id
            { category_code := some category_code
              store_code := some store_code
              description := some desc
              discount_code := some discount_code } s.category_discounts).2)) ∧
    (∀ (category_code : String) (u : CategoryUpdateData) (s : MasterState),
      (get_category_discount_by_code tenant_id (some category_code) s.category_discounts = none →
        update_category_discount_service tenant_id category_code u s =
          (Except.error AppError.documentNotFound, s)) ∧
      ((∃ d, get_category_discount_by_code tenant_id (some category_code) s.category_discounts =
          some d) →
        (update_category_discount_service tenant_id category_code u s).2.category_discounts =
          (update_category_discount_repo tenant_id (some category_code) u
            s.category_discounts).2)) ∧
    (∀ (category_code : String) (s : MasterState),
      (get_category_discount_by_code tenant_id (some category_code) s.category_discounts = none →
        delete_category_discount_service tenant_id category_code s =
          (Except.error AppError.documentNotFound, s)) ∧
      ((∃ d, get_category_discount_by_code tenant_id (some category_code) s.category_discounts =
          some d) →
        (delete_category_discount_service tenant_id category_code s).2.category_discounts =
          (delete_category_discount_repo tenant_id (some category_code)
            s.category_discounts).2)) := by
  refine ⟨?_, ?_, ?_, ?_, ?_, ?_⟩
  · intro discount_code store_code desc v s
    constructor
    · rintro ⟨d, hd⟩
      simp only [create_discount_store_service, hd]
    · intro h
      simp only [create_discount_store_service, h]
  · intro discount_code u s
    constructor
    · intro h
      simp only [update_discount_store_service, h]
    · rintro ⟨d, hd⟩
      simp only [update_discount_store_service, hd]
  · intro discount_code s
    constructor
    · intro h
      simp only [delete_discount_store_service, h]
    · rintro ⟨d, hd⟩
      simp only [delete_discount_store_service, hd]
  · intro category_code store_code desc discount_code s
    constructor
    · rintro ⟨d, hd⟩
      simp only [create_category_discount_service, hd]
    · intro h
      simp only [create_category_discount_service, h]
  · intro category_code u s
    constructor
    · intro h
      simp only [update_category_discount_service, h]
    · rintro ⟨d, hd⟩
      simp only [update_category_discount_service, hd]
  · intro category_code s
    constructor
    · intro h
      simp only [delete_category_discount_service, h]
    · rintro ⟨d, hd⟩
      simp only [delete_category_discount_service, hd]

/-- Witness for C4: with the sample store discount present, creating
the same discount_code again fails with `AlreadyExists` and leaves the
collection unchanged; updating a missing category discount on empty
collections fails with `NotFound`; deleting the present sample store
discount proceeds to the repository delete. -/
theorem C4_existence_check_then_mutate_witness :
    create_discount_store_service "T1" "D1" "S2" (some 5) "x" [sample_store_discount] =
      (Except.error AppError.documentAlreadyExists, [sample_store_discount]) ∧
    update_category_discount_service "T1" "C1" {} {} =
      (Except.error AppError.documentNotFound, {}) ∧
    delete_discount_store_service "T1" "D1" [sample_store_discount] =
      (Except.ok (), (delete_discount_store_repo "T1" (some "D1") [sample_store_discount]).2) := by
  refine ⟨?_, ?_, ?_⟩
  · exact ((C4_existence_check_then_mutate "T1").1 "D1" "S2" "x" (some 5)
      [sample_store_discount]).1 ⟨sample_store_discount, by decide⟩
  · exact ((C4_existence_check_then_mutate "T1").2.2.2.2.1 "C1" {} {}).1 rfl
  · exact ((C4_existence_check_then_mutate "T1").2.2.1 "D1" [sample_store_discount]).2
      ⟨sample_store_discount, by decide⟩

/-- C9 counterexample: repeated calls with the same category_code can
create duplicate cache entries.  With an upstream that answers the
detail request with the soft-miss payload (every field None — exactly
what the master-data detail endpoint returns for an absent category
discount), the first call fetches and appends one entry, and the second
call misses the cache again (the cached entry's category_code is None,
not the requested code), fetches again, and appends a second, duplicate
entry. -/
theorem C9_counterexample_duplicate_cache_entries :
    web_get_category_discount_detail (fun _ => HttpFetchResult.success {}) "C1" none =
      (Except.ok ({} : CategoryDiscountDetailsDocument),
       some [({} : CategoryDiscountDetailsDocument)]) ∧
    web_get_category_discount_detail (fun _ => HttpFetchResult.success {}) "C1"
      (web_get_category_discount_detail (fun _ => HttpFetchResult.success {}) "C1" none).2 =
      (Except.ok ({} : CategoryDiscountDetailsDocument),
       some [({} : CategoryDiscountDetailsDocument), ({} : CategoryDiscountDetailsDocument)]) := by
  constructor <;> rfl

/-- C9 (amended).  Cart-side web-repository cache behaviour: a `None`
cache is treated as the empty list; when the cache already contains a
document with the requested category_code, the call returns the first
such document with no HTTP request (the result does not depend on the
fetch oracle) and the cache unchanged; on a cache miss followed by a
successful fetch exactly one entry (the fetched document) is appended;
and when the fetched document carries the requested category_code, a
repeated call with the same code hits the cache, returns the document
fetched by the first call, and appends nothing — duplicates arise only
when the fetched document's category_code differs from the requested
code (as in the upstream soft-miss payload). -/
theorem C9_amended_cache_idempotence :
    (∀ (fetch : String → HttpFetchResult) (category_code : String),
      web_get_category_discount_detail fetch category_code none =
        web_get_category_discount_detail fetch category_code (some [])) ∧
    (∀ (fetch : String → HttpFetchResult) (category_code : String)
        (l : List CategoryDiscountDetailsDocument) (item : CategoryDiscountDetailsDocument),
      l.find? (fun i => decide (i.category_code = some category_code)) = some item →
      web_get_category_discount_detail fetch category_code (some l) =
        (Except.ok item, some l)) ∧
    (∀ (fetch : String → HttpFetchResult) (category_code : String)
        (l : List CategoryDiscountDetailsDocument) (doc : CategoryDiscountDetailsDocument),
      l.find? (fun i => decide (i.category_code = some category_code)) = none →
      fetch category_code = HttpFetchResult.success doc →
      web_get_category_discount_detail fetch category_code (some l) =
        (Except.ok doc, some (l ++ [doc]))) ∧
    (∀ (fetch : String → HttpFetchResult) (category_code : String)
        (l : List CategoryDiscountDetailsDocument) (doc : CategoryDiscountDetailsDocument),
      l.find? (fun i => decide (i.category_code = some category_code)) = none →
      fetch category_code = HttpFetchResult.success doc →
      doc.category_code = some category_code →
      web_get_category_discount_detail fetch category_code
        (web_get_category_discount_detail fetch category_code (some l)).2 =
        (Except.ok doc, some (l ++ [doc]))) := by
  have hmiss : ∀ (fetch : String → HttpFetchResult) (category_code : String)
      (l : List CategoryDiscountDetailsDocument) (doc : CategoryDiscountDetailsDocument),
      l.find? (fun i => decide (i.category_code = some category_code)) = none →
      fetch category_code = HttpFetchResult.success doc →
      web_get_category_discount_detail fetch category_code (some l) =
        (Except.ok doc, some (l ++ [doc])) := by
    intro fetch category_code l doc hfind hfetch
    simp only [web_get_category_discount_detail, Option.getD_some, hfind, hfetch]
  refine ⟨?_, ?_, hmiss, ?_⟩
  · intro fetch category_code
    rfl
  · intro fetch category_code l item hfind
    simp only [web_get_category_discount_detail, Option.getD_some, hfind]
  · intro fetch category_code l doc hfind hfetch hcode
    rw [hmiss fetch category_code l doc hfind hfetch]
    simp only [web_get_category_discount_detail, Option.getD_some, List.find?_append, hfind,
      Option.none_or]
    simp only [List.find?_cons, hcode, decide_eq_true_eq, if_pos]
    rw [List.find?]
    simp [hcode]

/-- Witness for the amended C9: a fetch that answers with a document
carrying the requested code "C1"; the first call appends it, the second
call returns it from the cache with the cache unchanged. -/
theorem C9_amended_cache_idempotence_witness :
    web_get_category_discount_detail
      (fun _ => HttpFetchResult.success { category_code := some "C1" }) "C1"
      (web_get_category_discount_detail
        (fun _ => HttpFetchResult.success { category_code := some "C1" }) "C1" (some [])).2 =
      (Except.ok ({ category_code := some "C1" } : CategoryDiscountDetailsDocument),
       some [({ category_code := some "C1" } : CategoryDiscountDetailsDocument)]) := by
  have h := C9_amended_cache_idempotence.2.2.2
    (fun _ => HttpFetchResult.success { category_code := some "C1" }) "C1" []
    { category_code := some "C1" } rfl rfl rfl
  simpa using h

/-- C1.  Tenant isolation: a document created through a repository
constructed for tenant t1 carries tenant_id t1, and therefore — because
every query filter of a repository constructed for tenant t2 ≠ t1
includes tenant_id = t2 — it is never returned by get_by_code, never
contained in a paginated list result, never matched by the update or
delete filter (even with an identical natural key), and survives any
update or delete issued through the t2 repository; stated for both the
discount store and the category discount repositories. -/
theorem C1_tenant_isolation (t1 t2 : String) (hne : t1 ≠ t2) :
    (∀ (doc : DiscountStoreMasterDocument) (s : List DiscountStoreMasterDocument)
        (d : DiscountStoreMasterDocument),
      (create_discount_store_repo t1 doc s).1 = Except.ok d →
      (∀ (code : Option String) (s2 : List DiscountStoreMasterDocument),
        get_discount_store_by_code t2 code s2 ≠ some d) ∧
      (∀ (f : StoreQueryFilter) (limit page : ℕ)
          (le : DiscountStoreMasterDocument → DiscountStoreMasterDocument → Bool)
          (s2 : List DiscountStoreMasterDocument),
        d ∉ (get_discount_store_by_filter_paginated t2 f limit page le s2).data) ∧
      (∀ code : Option String, (make_store_query_filter t2 code).matches d = false) ∧
      (∀ (code : Option String) (u : StoreUpdateData) (s2 : List DiscountStoreMasterDocument),
        d ∈ s2 → d ∈ (update_discount_store_repo t2 code u s2).2) ∧
      (∀ (code : Option String) (s2 : List DiscountStoreMasterDocument),
        d ∈ s2 → d ∈ (delete_discount_store_repo t2 code s2).2)) ∧
    (∀ (doc : CategoryDiscountMasterDocument) (s : List CategoryDiscountMasterDocument)
        (d : CategoryDiscountMasterDocument),
      (create_category_discount_repo t1 doc s).1 = Except.ok d →
      (∀ (code : Option String) (s2 : List CategoryDiscountMasterDocument),
        get_category_discount_by_code t2 code s2 ≠ some d) ∧
      (∀ (f : CategoryQueryFilter) (limit page : ℕ)
          (le : CategoryDiscountMasterDocument → CategoryDiscountMasterDocument → Bool)
          (s2 : List CategoryDiscountMasterDocument),
        d ∉ (get_category_discount_by_filter_paginated t2 f limit page le s2).data) ∧
      (∀ code : Option String, (make_category_query_filter t2 code).matches d = false) ∧
      (∀ (code : Option String) (u : CategoryUpdateData) (s2 : List CategoryDiscountMasterDocument),
        d ∈ s2 → d ∈ (update_category_discount_repo t2 code u s2).2) ∧
      (∀ (code : Option String) (s2 : List CategoryDiscountMasterDocument),
        d ∈ s2 → d ∈ (delete_category_discount_repo t2 code s2).2)) := by
  constructor
  · intro doc s d hd
    have htid : d.tenant_id = some t1 := by
      simp only [create_discount_store_repo, Except.ok.injEq] at hd
      rw [← hd]
    have hmatch : ∀ (f : StoreQueryFilter), f.tenant_id = some (some t2) →
        f.matches d = false := by
      intro f hf
      unfold StoreQueryFilter.matches
      rw [hf, htid]
      simp [hne]
    have hkey : ∀ code : Option String, (make_store_query_filter t2 code).matches d = false :=
      fun code => hmatch _ rfl
    refine ⟨?_, ?_, hkey, ?_, ?_⟩
    · intro code s2 hcontra
      have := find_one_matches hcontra
      rw [hkey code] at this
      cases this
    · intro f limit page le s2 hmem
      unfold get_discount_store_by_filter_paginated get_paginated_list at hmem
      simp only at hmem
      have h1 := List.take_subset _ _ hmem
      have h2 := List.drop_subset _ _ h1
      have h3 := List.mem_mergeSort.mp h2
      have h4 := (List.mem_filter.mp h3).2
      rw [hmatch { f with tenant_id := some (some t2) } rfl] at h4
      cases h4
    · intro code u s2 hmem
      unfold update_discount_store_repo
      by_cases hu : (update_first (make_store_query_filter t2 code).matches
          (apply_store_update u) s2).1
      · simp only [hu, if_true]
        exact mem_update_first_of_not_matches hmem (hkey code)
      · simp only [hu, if_false]
        exact hmem
    · intro code s2 hmem
      exact mem_delete_first_of_not_matches hmem (hkey code)
  · intro doc s d hd
    have htid : d.tenant_id = some t1 := by
      simp only [create_category_discount_repo, Except.ok.injEq] at hd
      rw [← hd]
    have hmatch : ∀ (f : CategoryQueryFilter), f.tenant_id = some (some t2) →
        f.matches d = false := by
      intro f hf
      unfold CategoryQueryFilter.matches
      rw [hf, htid]
      simp [hne]
    have hkey : ∀ code : Option String, (make_category_query_filter t2 code).matches d = false :=
      fun code => hmatch _ rfl
    refine ⟨?_, ?_, hkey, ?_, ?_⟩
    · intro code s2 hcontra
      have := find_one_matches hcontra
      rw [hkey code] at this
      cases this
    · intro f limit page le s2 hmem
      unfold get_category_discount_by_filter_paginated get_paginated_list at hmem
      simp only at hmem
      have h1 := List.take_subset _ _ hmem
      have h2 := List.drop_subset _ _ h1
      have h3 := List.mem_mergeSort.mp h2
      have h4 := (List.mem_filter.mp h3).2
      rw [hmatch { f with tenant_id := some (some t2) } rfl] at h4
      cases h4
    · intro code u s2 hmem
      unfold update_category_discount_repo
      by_cases hu : (update_first (make_category_query_filter t2 code).matches
          (apply_category_update u) s2).1
      · simp only [hu, if_true]
        exact mem_update_first_of_not_matches hmem (hkey code)
      · simp only [hu, if_false]
        exact hmem
    · intro code s2 hmem
      exact mem_delete_first_of_not_matches hmem (hkey code)

/-- Witness for C1: the store discount created under tenant "T1" is not
matched by the tenant "T2" key filter with the identical discount code,
is not returned by a "T2" get_by_code over a collection containing it,
and survives a "T2" delete. -/
theorem C1_tenant_isolation_witness :
    (make_store_query_filter "T2" (some "D1")).matches sample_store_discount = false ∧
    get_discount_store_by_code "T2" (some "D1") [sample_store_discount] ≠
      some sample_store_discount ∧
    sample_store_discount ∈
      (delete_discount_store_repo "T2" (some "D1") [sample_store_discount]).2 := by
  have h := (C1_tenant_isolation "T1" "T2" (by decide)).1
    { store_code := some "S1", discount_code := some "D1", discount_value := some 20,
      description := some "disc" } [] sample_store_discount
    (by unfold sample_store_discount; rfl)
  exact ⟨h.2.2.1 (some "D1"), h.1 (some "D1") [sample_store_discount],
    h.2.2.2.2 (some "D1") [sample_store_discount] (List.mem_singleton.mpr rfl)⟩

/-- C5.  Pagination contract of the discount store paginated list: for
every collection state, caller filter, sort comparator, limit L and
1-based page P, the result holds at most L documents, namely the slice
of the sorted filtered sequence starting at skip = (P-1)*L; total_count
equals the number of documents matching the tenant-augmented filter,
independent of L and P; and with limit 2, pages 1 and 2 together are a
permutation of a 4-document tenant-scoped filtered set — no overlap and
no gaps. -/
theorem C5_pagination_contract (tenant_id : String) (f : StoreQueryFilter) (limit page : ℕ)
    (le : DiscountStoreMasterDocument → DiscountStoreMasterDocument → Bool)
    (s : List DiscountStoreMasterDocument) (_hpage : 1 ≤ page) :
    (get_discount_store_by_filter_paginated tenant_id f limit page le s).data.length ≤ limit ∧
    (get_discount_store_by_filter_paginated tenant_id f limit page le s).data =
      (((s.filter ({ f with tenant_id := some (some tenant_id)} : StoreQueryFilter).matches).mergeSort
        le).drop ((page - 1) * limit)).take limit ∧
    (get_discount_store_by_filter_paginated tenant_id f limit page le s).total_count =
      (s.filter ({ f with tenant_id := some (some tenant_id)} : StoreQueryFilter).matches).length ∧
    (∀ limit2 page2 : ℕ,
      (get_discount_store_by_filter_paginated tenant_id f limit2 page2 le s).total_count =
        (get_discount_store_by_filter_paginated tenant_id f limit page le s).total_count) ∧
    ((s.filter ({ f with tenant_id := some (some tenant_id)} : StoreQueryFilter).matches).length = 4 →
      ((get_discount_store_by_filter_paginated tenant_id f 2 1 le s).data ++
        (get_discount_store_by_filter_paginated tenant_id f 2 2 le s).data).Perm
        (s.filter ({ f with tenant_id := some (some tenant_id)} : StoreQueryFilter).matches)) := by
  refine ⟨List.length_take_le _ _, rfl, rfl, fun limit2 page2 => rfl, ?_⟩
  intro h4
  have hlen : ((s.filter ({ f with tenant_id := some (some tenant_id)} :
      StoreQueryFilter).matches).mergeSort le).length = 4 := by
    rw [List.length_mergeSort]
    exact h4
  have hperm := List.mergeSort_perm
    (s.filter ({ f with tenant_id := some (some tenant_id)} : StoreQueryFilter).matches) le
  have heq : (get_discount_store_by_filter_paginated tenant_id f 2 1 le s).data ++
      (get_discount_store_by_filter_paginated tenant_id f 2 2 le s).data =
      (s.filter ({ f with tenant_id := some (some tenant_id)} :
        StoreQueryFilter).matches).mergeSort le := by
    show ((((s.filter _).mergeSort le).drop 0).take 2) ++
      ((((s.filter _).mergeSort le).drop 2).take 2) = (s.filter _).mergeSort le
    have h2 : ((((s.filter ({ f with tenant_id := some (some tenant_id)} :
        StoreQueryFilter).matches).mergeSort le).drop 2).take 2) =
        ((s.filter ({ f with tenant_id := some (some tenant_id)} :
          StoreQueryFilter).matches).mergeSort le).drop 2 :=
      List.take_of_length_le (by rw [List.length_drop, hlen])
    rw [List.drop_zero, h2]
    exact List.take_append_drop 2 _
  rw [heq]
  exact hperm

/-- Witness for C5 with a 4-document collection: two documents of
tenant "T1" among two of tenant "T2"; the empty caller filter plus the
injected tenant, limit 2, page 1. -/
theorem C5_pagination_contract_witness :
    (get_discount_store_by_filter_paginated "T1" {} 2 1
        (fun a b => decide (a.discount_code.getD "" ≤ b.discount_code.getD ""))
        [{ discount_code := some "A", tenant_id := some "T1" },
          { discount_code := some "B", tenant_id := some "T2" },
          { discount_code := some "C", tenant_id := some "T1" },
          { discount_code := some "D", tenant_id := some "T2" }]).data.length ≤ 2 ∧
    (get_discount_store_by_filter_paginated "T1" {} 2 1
        (fun a b => decide (a.discount_code.getD "" ≤ b.discount_code.getD ""))
        [{ discount_code := some "A", tenant_id := some "T1" },
          { discount_code := some "B", tenant_id := some "T2" },
          { discount_code := some "C", tenant_id := some "T1" },
          { discount_code := some "D", tenant_id := some "T2" }]).total_count = 2 := by
  have h := C5_pagination_contract "T1" {} 2 1
    (fun a b => decide (a.discount_code.getD "" ≤ b.discount_code.getD ""))
    [{ discount_code := some "A", tenant_id := some "T1" },
      { discount_code := some "B", tenant_id := some "T2" },
      { discount_code := some "C", tenant_id := some "T1" },
      { discount_code := some "D", tenant_id := some "T2" }] (by decide)
  refine ⟨h.1, ?_⟩
  rw [h.2.2.1]
  decide

theorem edit_item_book_book_missing {t bid : String}
    {f : ItemBookDocument → Except ItemBookError ItemBookDocument} {s : List ItemBookDocument}
    (h : find_item_book t bid s = none) :
    edit_item_book t bid f s = (Except.error (ItemBookError.notFound ItemBookLevel.book), s) := by
  simp only [edit_item_book, h]

theorem edit_item_book_inner_error {t bid : String}
    {f : ItemBookDocument → Except ItemBookError ItemBookDocument} {s : List ItemBookDocument}
    {b : ItemBookDocument} {e : ItemBookError}
    (hb : find_item_book t bid s = some b) (hf : f b = Except.error e) :
    edit_item_book t bid f s = (Except.error e, s) := by
  simp only [edit_item_book, hb, hf]

theorem edit_category_in_book_missing {cn : Int}
    {f : ItemBookCategory → Except ItemBookError ItemBookCategory} {b : ItemBookDocument}
    (h : b.categories.find? (fun c => decide (c.category_number = cn)) = none) :
    edit_category_in_book cn f b =
      Except.error (ItemBookError.notFound ItemBookLevel.category) := by
  simp only [edit_category_in_book, h]

theorem edit_category_in_book_inner_error {cn : Int}
    {f : ItemBookCategory → Except ItemBookError ItemBookCategory} {b : ItemBookDocument}
    {c : ItemBookCategory} {e : ItemBookError}
    (hc : b.categories.find? (fun x => decide (x.category_number = cn)) = some c)
    (hf : f c = Except.error e) :
    edit_category_in_book cn f b = Except.error e := by
  simp only [edit_category_in_book, hc, hf]

theorem edit_tab_in_category_missing {tn : Int}
    {f : ItemBookTab → Except ItemBookError ItemBookTab} {c : ItemBookCategory}
    (h : c.tabs.find? (fun t => decide (t.tab_number = tn)) = none) :
    edit_tab_in_category tn f c = Except.error (ItemBookError.notFound ItemBookLevel.tab) := by
  simp only [edit_tab_in_category, h]

theorem edit_tab_in_category_inner_error {tn : Int}
    {f : ItemBookTab → Except ItemBookError ItemBookTab} {c : ItemBookCategory}
    {t : ItemBookTab} {e : ItemBookError}
    (ht : c.tabs.find? (fun x => decide (x.tab_number = tn)) = some t)
    (hf : f t = Except.error e) :
    edit_tab_in_category tn f c = Except.error e := by
  simp only [edit_tab_in_category, ht, hf]

/-- C6.  Item-book nested mutation atomicity on a missing ancestor: for
every nested mutation, a missing addressed book yields `NotFound` at the
book level; a missing addressed category_number yields `NotFound` at the
category level; a missing addressed tab_number yields `NotFound` at the
tab level — and in every such case the persisted state is returned
completely unchanged. -/
theorem C6_missing_ancestor_not_found (tenant_id item_book_id : String)
    (s : List ItemBookDocument) :
    (find_item_book tenant_id item_book_id s = none →
      (∀ c, add_category_to_item_book tenant_id item_book_id c s =
        (Except.error (ItemBookError.notFound ItemBookLevel.book), s)) ∧
      (∀ cn c, update_category_in_item_book tenant_id item_book_id cn c s =
        (Except.error (ItemBookError.notFound ItemBookLevel.book), s)) ∧
      (∀ cn, delete_category_from_item_book tenant_id item_book_id cn s =
        (Except.error (ItemBookError.notFound ItemBookLevel.book), s)) ∧
      (∀ cn tab, add_tab_to_category_in_item_book tenant_id item_book_id cn tab s =
        (Except.error (ItemBookError.notFound ItemBookLevel.book), s)) ∧
      (∀ cn tn tab, update_tab_in_category_in_item_book tenant_id item_book_id cn tn tab s =
        (Except.error (ItemBookError.notFound ItemBookLevel.book), s)) ∧
      (∀ cn tn, delete_tab_from_category_in_item_book tenant_id item_book_id cn tn s =
        (Except.error (ItemBookError.notFound ItemBookLevel.book), s)) ∧
      (∀ cn tn btn, add_button_to_tab_in_category_in_item_book tenant_id item_book_id cn tn btn s =
        (Except.error (ItemBookError.notFound ItemBookLevel.book), s)) ∧
      (∀ cn tn px py btn,
        update_button_in_tab_in_category_in_item_book tenant_id item_book_id cn tn px py btn s =
          (Except.error (ItemBookError.notFound ItemBookLevel.book), s)) ∧
      (∀ cn tn px py,
        delete_button_from_tab_in_category_in_item_book tenant_id item_book_id cn tn px py s =
          (Except.error (ItemBookError.notFound ItemBookLevel.book), s))) ∧
    (∀ (b : ItemBookDocument) (cn : Int),
      find_item_book tenant_id item_book_id s = some b →
      b.categories.find? (fun c => decide (c.category_number = cn)) = none →
      (∀ c, update_category_in_item_book tenant_id item_book_id cn c s =
        (Except.error (ItemBookError.notFound ItemBookLevel.category), s)) ∧
      (delete_category_from_item_book tenant_id item_book_id cn s =
        (Except.error (ItemBookError.notFound ItemBookLevel.category), s)) ∧
      (∀ tab, add_tab_to_category_in_item_book tenant_id item_book_id cn tab s =
        (Except.error (ItemBookError.notFound ItemBookLevel.category), s)) ∧
      (∀ tn tab, update_tab_in_category_in_item_book tenant_id item_book_id cn tn tab s =
        (Except.error (ItemBookError.notFound ItemBookLevel.category), s)) ∧
      (∀ tn, delete_tab_from_category_in_item_book tenant_id item_book_id cn tn s =
        (Except.error (ItemBookError.notFound ItemBookLevel.category), s)) ∧
      (∀ tn btn, add_button_to_tab_in_category_in_item_book tenant_id item_book_id cn tn btn s =
        (Except.error (ItemBookError.notFound ItemBookLevel.category), s)) ∧
      (∀ tn px py btn,
        update_button_in_tab_in_category_in_item_book tenant_id item_book_id cn tn px py btn s =
          (Except.error (ItemBookError.notFound ItemBookLevel.category), s)) ∧
      (∀ tn px py,
        delete_button_from_tab_in_category_in_item_book tenant_id item_book_id cn tn px py s =
          (Except.error (ItemBookError.notFound ItemBookLevel.category), s))) ∧
    (∀ (b : ItemBookDocument) (cn : Int) (cat : ItemBookCategory) (tn : Int),
      find_item_book tenant_id item_book_id s = some b →
      b.categories.find? (fun c => decide (c.category_number = cn)) = some cat →
      cat.tabs.find? (fun t => decide (t.tab_number = tn)) = none →
      (∀ tab, update_tab_in_category_in_item_book tenant_id item_book_id cn tn tab s =
        (Except.error (ItemBookError.notFound ItemBookLevel.tab), s)) ∧
      (delete_tab_from_category_in_item_book tenant_id item_book_id cn tn s =
        (Except.error (ItemBookError.notFound ItemBookLevel.tab), s)) ∧
      (∀ btn, add_button_to_tab_in_category_in_item_book tenant_id item_book_id cn tn btn s =
        (Except.error (ItemBookError.notFound ItemBookLevel.tab), s)) ∧
      (∀ px py btn,
        update_button_in_tab_in_category_in_item_book tenant_id item_book_id cn tn px py btn s =
          (Except.error (ItemBookError.notFound ItemBookLevel.tab), s)) ∧
      (∀ px py,
        delete_button_from_tab_in_category_in_item_book tenant_id item_book_id cn tn px py s =
          (Except.error (ItemBookError.notFound ItemBookLevel.tab), s))) := by
  refine ⟨?_, ?_, ?_⟩
  · intro h
    exact ⟨fun c => edit_item_book_book_missing h,
      fun cn c => edit_item_book_book_missing h,
      fun cn => edit_item_book_book_missing h,
      fun cn tab => edit_item_book_book_missing h,
      fun cn tn tab => edit_item_book_book_missing h,
      fun cn tn => edit_item_book_book_missing h,
      fun cn tn btn => edit_item_book_book_missing h,
      fun cn tn px py btn => edit_item_book_book_missing h,
      fun cn tn px py => edit_item_book_book_missing h⟩
  · intro b cn hb hc
    exact ⟨fun c => edit_item_book_inner_error hb (edit_category_in_book_missing hc),
      edit_item_book_inner_error hb (by simp only [hc]),
      fun tab => edit_item_book_inner_error hb (edit_category_in_book_missing hc),
      fun tn tab => edit_item_book_inner_error hb (edit_category_in_book_missing hc),
      fun tn => edit_item_book_inner_error hb (edit_category_in_book_missing hc),
      fun tn btn => edit_item_book_inner_error hb (edit_category_in_book_missing hc),
      fun tn px py btn => edit_item_book_inner_error hb (edit_category_in_book_missing hc),
      fun tn px py => edit_item_book_inner_error hb (edit_category_in_book_missing hc)⟩
  · intro b cn cat tn hb hc ht
    exact ⟨fun tab => edit_item_book_inner_error hb
        (edit_category_in_book_inner_error hc (edit_tab_in_category_missing ht)),
      edit_item_book_inner_error hb
        (edit_category_in_book_inner_error hc (by simp only [ht])),
      fun btn => edit_item_book_inner_error hb
        (edit_category_in_book_inner_error hc (edit_tab_in_category_missing ht)),
      fun px py btn => edit_item_book_inner_error hb
        (edit_category_in_book_inner_error hc (edit_tab_in_category_missing ht)),
      fun px py => edit_item_book_inner_error hb
        (edit_category_in_book_inner_error hc (edit_tab_in_category_missing ht))⟩

/-- Witness for C6: on a state holding the sample book (category 1,
tab 1), updating a tab inside nonexistent category 2 fails with
`NotFound` at the category level leaving the state unchanged; adding a
button to nonexistent tab 2 of category 1 fails with `NotFound` at the
tab level; and any mutation against an absent book id fails with
`NotFound` at the book level. -/
theorem C6_missing_ancestor_not_found_witness :
    update_tab_in_category_in_item_book "T1" "B1" 2 1 { tab_number := 1 } [sample_item_book] =
      (Except.error (ItemBookError.notFound ItemBookLevel.category), [sample_item_book]) ∧
    add_button_to_tab_in_category_in_item_book "T1" "B1" 1 2 { pos_x := 0, pos_y := 0 }
        [sample_item_book] =
      (Except.error (ItemBookError.notFound ItemBookLevel.tab), [sample_item_book]) ∧
    add_category_to_item_book "T1" "B9" { category_number := 5 } [sample_item_book] =
      (Except.error (ItemBookError.notFound ItemBookLevel.book), [sample_item_book]) := by
  refine ⟨?_, ?_, ?_⟩
  · exact (((C6_missing_ancestor_not_found "T1" "B1" [sample_item_book]).2.1
      sample_item_book 2 (by decide) (by decide)).2.2.2.1 1 { tab_number := 1 })
  · exact (((C6_missing_ancestor_not_found "T1" "B1" [sample_item_book]).2.2
      sample_item_book 1 sample_item_book_category 2 (by decide) (by decide) (by decide)).2.2.1
      { pos_x := 0, pos_y := 0 })
  · exact ((C6_missing_ancestor_not_found "T1" "B9" [sample_item_book]).1 (by decide)).1
      { category_number := 5 }

theorem edit_item_book_find_some {t bid : String}
    {f : ItemBookDocument → Except ItemBookError ItemBookDocument} {s : List ItemBookDocument}
    {b : ItemBookDocument} (hb : find_item_book t bid s = some b) :
    edit_item_book t bid f s =
      match f b with
      | Except.error e => (Except.error e, s)
      | Except.ok b2 =>
        (Except.ok b2,
          replace_first (fun x => decide (x.tenant_id = some t ∧ x.item_book_id = bid)) b2 s) := by
  simp only [edit_item_book, hb]

theorem edit_category_in_book_find_some {cn : Int}
    {f : ItemBookCategory → Except ItemBookError ItemBookCategory} {b : ItemBookDocument}
    {c : ItemBookCategory}
    (hc : b.categories.find? (fun x => decide (x.category_number = cn)) = some c) :
    edit_category_in_book cn f b =
      match f c with
      | Except.error e => Except.error e
      | Except.ok c2 =>
        Except.ok { b with
          categories := replace_first (fun x => decide (x.category_number = cn)) c2 b.categories } := by
  simp only [edit_category_in_book, hc]

theorem edit_tab_in_category_find_some {tn : Int}
    {f : ItemBookTab → Except ItemBookError ItemBookTab} {c : ItemBookCategory}
    {t : ItemBookTab}
    (ht : c.tabs.find? (fun x => decide (x.tab_number = tn)) = some t) :
    edit_tab_in_category tn f c =
      match f t with
      | Except.error e => Except.error e
      | Except.ok t2 =>
        Except.ok { c with
          tabs := replace_first (fun x => decide (x.tab_number = tn)) t2 c.tabs } := by
  simp only [edit_tab_in_category, ht]

theorem state_unique_of_edit_book {t bid : String}
    {f : ItemBookDocument → Except ItemBookError ItemBookDocument} {s : List ItemBookDocument}
    (hs : state_buttons_unique s)
    (hf : ∀ b ∈ s, book_buttons_unique b → ∀ b2, f b = Except.ok b2 → book_buttons_unique b2) :
    state_buttons_unique (edit_item_book t bid f s).2 := by
  cases hb : find_item_book t bid s with
  | none => rw [edit_item_book_book_missing hb]; exact hs
  | some b =>
    rw [edit_item_book_find_some hb]
    cases hv : f b with
    | error e => exact hs
    | ok b2 =>
      intro x hx
      rcases mem_replace_first hx with rfl | hx
      · exact hf b (List.mem_of_find?_eq_some hb) (hs b (List.mem_of_find?_eq_some hb)) x hv
      · exact hs x hx

theorem book_unique_of_edit_category {cn : Int}
    {f : ItemBookCategory → Except ItemBookError ItemBookCategory} {b b2 : ItemBookDocument}
    (hb : book_buttons_unique b)
    (hf : ∀ c ∈ b.categories, category_buttons_unique c →
      ∀ c2, f c = Except.ok c2 → category_buttons_unique c2)
    (h : edit_category_in_book cn f b = Except.ok b2) :
    book_buttons_unique b2 := by
  cases hc : b.categories.find? (fun c => decide (c.category_number = cn)) with
  | none => rw [edit_category_in_book_missing hc] at h; cases h
  | some c =>
    rw [edit_category_in_book_find_some hc] at h
    cases hv : f c with
    | error e => rw [hv] at h; cases h
    | ok c2 =>
      rw [hv] at h
      injection h with h2
      subst h2
      intro x hx
      rcases mem_replace_first hx with rfl | hx
      · exact hf c (List.mem_of_find?_eq_some hc) (hb c (List.mem_of_find?_eq_some hc)) x hv
      · exact hb x hx

theorem category_unique_of_edit_tab {tn : Int}
    {f : ItemBookTab → Except ItemBookError ItemBookTab} {c c2 : ItemBookCategory}
    (hc : category_buttons_unique c)
    (hf : ∀ t ∈ c.tabs, tab_buttons_unique t →
      ∀ t2, f t = Except.ok t2 → tab_buttons_unique t2)
    (h : edit_tab_in_category tn f c = Except.ok c2) :
    category_buttons_unique c2 := by
  cases ht : c.tabs.find? (fun t => decide (t.tab_number = tn)) with
  | none => rw [edit_tab_in_category_missing ht] at h; cases h
  | some t =>
    rw [edit_tab_in_category_find_some ht] at h
    cases hv : f t with
    | error e => rw [hv] at h; cases h
    | ok t2 =>
      rw [hv] at h
      injection h with h2
      subst h2
      intro x hx
      rcases mem_replace_first hx with rfl | hx
      · exact hf t (List.mem_of_find?_eq_some ht) (hc t (List.mem_of_find?_eq_some ht)) x hv
      · exact hc x hx

theorem tab_unique_append_button {l : List ItemBookButton} {a : ItemBookButton}
    (h : l.Pairwise fun x y => ¬(x.pos_x = y.pos_x ∧ x.pos_y = y.pos_y))
    (hnew : ∀ x ∈ l, ¬(x.pos_x = a.pos_x ∧ x.pos_y = a.pos_y)) :
    (l ++ [a]).Pairwise fun x y => ¬(x.pos_x = y.pos_x ∧ x.pos_y = y.pos_y) := by
  refine List.pairwise_append.mpr ⟨h, List.pairwise_singleton _ _, ?_⟩
  intro x hx y hy
  rw [List.mem_singleton] at hy
  subst hy
  exact hnew x hx

theorem tab_unique_replace_button {px py : Int} {a : ItemBookButton}
    (ha1 : a.pos_x = px) (ha2 : a.pos_y = py) :
    ∀ {l : List ItemBookButton},
      (l.Pairwise fun x y => ¬(x.pos_x = y.pos_x ∧ x.pos_y = y.pos_y)) →
      ((replace_first (fun b => decide (b.pos_x = px ∧ b.pos_y = py)) a l).Pairwise
        fun x y => ¬(x.pos_x = y.pos_x ∧ x.pos_y = y.pos_y)) := by
  intro l
  induction l with
  | nil => intro h; exact h
  | cons x xs ih =>
    intro h
    rcases List.pairwise_cons.mp h with ⟨hx, hxs⟩
    cases hd : decide (x.pos_x = px ∧ x.pos_y = py) with
    | true =>
      have hxe := of_decide_eq_true hd
      simp only [replace_first, hd, if_true]
      refine List.pairwise_cons.mpr ⟨?_, hxs⟩
      intro y hy hcontra
      exact hx y hy ⟨by rw [hxe.1, ← ha1]; exact hcontra.1,
        by rw [hxe.2, ← ha2]; exact hcontra.2⟩
    | false =>
      have hxne := of_decide_eq_false hd
      simp only [replace_first, hd, Bool.false_eq_true, if_false]
      refine List.pairwise_cons.mpr ⟨?_, ih hxs⟩
      intro y hy
      rcases mem_replace_first hy with rfl | hy
      · intro hcontra
        exact hxne ⟨by rw [← ha1]; exact hcontra.1, by rw [← ha2]; exact hcontra.2⟩
      · exact hx y hy

/-- C7.  Button positional uniqueness: the invariant "within every tab
of every category of every book in the stored state, no two buttons
share (pos_x, pos_y)" is preserved by every item-book operation (the
create/add payloads being themselves well-formed), so it holds of every
reachable state; and adding a button at a position already occupied in
the addressed tab fails with `AlreadyExists` at the button level and
leaves the state unchanged. -/
theorem C7_button_position_uniqueness (tenant_id item_book_id : String) :
    (∀ (title : Option String) (cats : List ItemBookCategory) (s : List ItemBookDocument),
      state_buttons_unique s → (∀ c ∈ cats, category_buttons_unique c) →
      state_buttons_unique (create_item_book tenant_id item_book_id title cats s).2) ∧
    (∀ (c : ItemBookCategory) (s : List ItemBookDocument),
      state_buttons_unique s → category_buttons_unique c →
      state_buttons_unique (add_category_to_item_book tenant_id item_book_id c s).2) ∧
    (∀ (cn : Int) (c : ItemBookCategory) (s : List ItemBookDocument),
      state_buttons_unique s →
      state_buttons_unique (update_category_in_item_book tenant_id item_book_id cn c s).2) ∧
    (∀ (cn : Int) (s : List ItemBookDocument),
      state_buttons_unique s →
      state_buttons_unique (delete_category_from_item_book tenant_id item_book_id cn s).2) ∧
    (∀ (cn : Int) (tab : ItemBookTab) (s : List ItemBookDocument),
      state_buttons_unique s → tab_buttons_unique tab →
      state_buttons_unique (add_tab_to_category_in_item_book tenant_id item_book_id cn tab s).2) ∧
    (∀ (cn tn : Int) (tab : ItemBookTab) (s : List ItemBookDocument),
      state_buttons_unique s →
      state_buttons_unique
        (update_tab_in_category_in_item_book tenant_id item_book_id cn tn tab s).2) ∧
    (∀ (cn tn : Int) (s : List ItemBookDocument),
      state_buttons_unique s →
      state_buttons_unique
        (delete_tab_from_category_in_item_book tenant_id item_book_id cn tn s).2) ∧
    (∀ (cn tn : Int) (btn : ItemBookButton) (s : List ItemBookDocument),
      state_buttons_unique s →
      state_buttons_unique
        (add_button_to_tab_in_category_in_item_book tenant_id item_book_id cn tn btn s).2) ∧
    (∀ (cn tn px py : Int) (btn : ItemBookButton) (s : List ItemBookDocument),
      state_buttons_unique s →
      state_buttons_unique
        (update_button_in_tab_in_category_in_item_book tenant_id item_book_id
          cn tn px py btn s).2) ∧
    (∀ (cn tn px py : Int) (s : List ItemBookDocument),
      state_buttons_unique s →
      state_buttons_unique
        (delete_button_from_tab_in_category_in_item_book tenant_id item_book_id cn tn px py s).2) ∧
    (∀ (s : List ItemBookDocument) (b : ItemBookDocument) (cn tn : Int)
        (cat : ItemBookCategory) (tab : ItemBookTab) (btn : ItemBookButton),
      find_item_book tenant_id item_book_id s = some b →
      b.categories.find? (fun c => decide (c.category_number = cn)) = some cat →
      cat.tabs.find? (fun t => decide (t.tab_number = tn)) = some tab →
      tab.buttons.any (fun x => decide (x.pos_x = btn.pos_x ∧ x.pos_y = btn.pos_y)) = true →
      add_button_to_tab_in_category_in_item_book tenant_id item_book_id cn tn btn s =
        (Except.error (ItemBookError.alreadyExists ItemBookLevel.button), s)) := by
  refine ⟨?_, ?_, ?_, ?_, ?_, ?_, ?_, ?_, ?_, ?_, ?_⟩
  · intro title cats s hs hcats
    intro x hx
    rcases List.mem_append.mp hx with hx | hx
    · exact hs x hx
    · rw [List.mem_singleton] at hx
      subst hx
      intro c hc
      exact hcats c hc
  · intro c s hs hc
    unfold add_category_to_item_book
    refine state_unique_of_edit_book hs ?_
    intro b _ bu b2 hb2
    cases hany : b.categories.any (fun c0 => decide (c0.category_number = c.category_number)) with
    | true =>
      simp only [hany] at hb2
      simp at hb2
    | false =>
      simp only [hany] at hb2
      rw [if_neg Bool.false_ne_true] at hb2
      injection hb2 with h2
      subst h2
      intro x hx
      rcases List.mem_append.mp hx with hx | hx
      · exact bu x hx
      · rw [List.mem_singleton] at hx
        subst hx
        exact hc
  · intro cn c s hs
    unfold update_category_in_item_book
    refine state_unique_of_edit_book hs ?_
    intro b _ bu b2 hb2
    refine book_unique_of_edit_category bu ?_ hb2
    intro c0 _ cu c2 hc2
    injection hc2 with h2
    subst h2
    intro t ht
    exact cu t ht
  · intro cn s hs
    unfold delete_category_from_item_book
    refine state_unique_of_edit_book hs ?_
    intro b _ bu b2 hb2
    cases hc : b.categories.find? (fun c => decide (c.category_number = cn)) with
    | none => rw [hc] at hb2; cases hb2
    | some c =>
      rw [hc] at hb2
      injection hb2 with h2
      subst h2
      intro x hx
      exact bu x ((List.eraseP_sublist _).subset hx)
  · intro cn tab s hs htab
    unfold add_tab_to_category_in_item_book
    refine state_unique_of_edit_book hs ?_
    intro b _ bu b2 hb2
    refine book_unique_of_edit_category bu ?_ hb2
    intro c0 _ cu c2 hc2
    cases hany : c0.tabs.any (fun t => decide (t.tab_number = tab.tab_number)) with
    | true =>
      simp only [hany] at hc2
      simp at hc2
    | false =>
      simp only [hany] at hc2
      rw [if_neg Bool.false_ne_true] at hc2
      injection hc2 with h2
      subst h2
      intro t ht
      rcases List.mem_append.mp ht with ht | ht
      · exact cu t ht
      · rw [List.mem_singleton] at ht
        subst ht
        exact htab
  · intro cn tn tab s hs
    unfold update_tab_in_category_in_item_book
    refine state_unique_of_edit_book hs ?_
    intro b _ bu b2 hb2
    refine book_unique_of_edit_category bu ?_ hb2
    intro c0 _ cu c2 hc2
    refine category_unique_of_edit_tab cu ?_ hc2
    intro t0 _ tu t2 ht2
    injection ht2 with h2
    subst h2
    exact tu
  · intro cn tn s hs
    unfold delete_tab_from_category_in_item_book
    refine state_unique_of_edit_book hs ?_
    intro b _ bu b2 hb2
    refine book_unique_of_edit_category bu ?_ hb2
    intro c0 _ cu c2 hc2
    cases ht : c0.tabs.find? (fun t => decide (t.tab_number = tn)) with
    | none => rw [ht] at hc2; cases hc2
    | some t0 =>
      rw [ht] at hc2
      injection hc2 with h2
      subst h2
      intro t htmem
      exact cu t ((List.eraseP_sublist _).subset htmem)
  · intro cn tn btn s hs
    unfold add_button_to_tab_in_category_in_item_book
    refine state_unique_of_edit_book hs ?_
    intro b _ bu b2 hb2
    refine book_unique_of_edit_category bu ?_ hb2
    intro c0 _ cu c2 hc2
    refine category_unique_of_edit_tab cu ?_ hc2
    intro t0 _ tu t2 ht2
    cases hany : t0.buttons.any
        (fun x => decide (x.pos_x = btn.pos_x ∧ x.pos_y = btn.pos_y)) with
    | true =>
      simp only [hany] at ht2
      simp at ht2
    | false =>
      simp only [hany] at ht2
      rw [if_neg Bool.false_ne_true] at ht2
      injection ht2 with h2
      subst h2
      exact tab_unique_append_button tu
        (fun x hx hcontra => (List.any_eq_false.mp hany) x hx (decide_eq_true hcontra))
  · intro cn tn px py btn s hs
    unfold update_button_in_tab_in_category_in_item_book
    refine state_unique_of_edit_book hs ?_
    intro b _ bu b2 hb2
    refine book_unique_of_edit_category bu ?_ hb2
    intro c0 _ cu c2 hc2
    refine category_unique_of_edit_tab cu ?_ hc2
    intro t0 _ tu t2 ht2
    cases hfind : t0.buttons.find? (fun x => decide (x.pos_x = px ∧ x.pos_y = py)) with
    | none => rw [hfind] at ht2; cases ht2
    | some x0 =>
      rw [hfind] at ht2
      injection ht2 with h2
      subst h2
      exact @tab_unique_replace_button px py
        { pos_x := px, pos_y := py, item_code := btn.item_code, title := btn.title }
        rfl rfl t0.buttons tu
  · intro cn tn px py s hs
    unfold delete_button_from_tab_in_category_in_item_book
    refine state_unique_of_edit_book hs ?_
    intro b _ bu b2 hb2
    refine book_unique_of_edit_category bu ?_ hb2
    intro c0 _ cu c2 hc2
    refine category_unique_of_edit_tab cu ?_ hc2
    intro t0 _ tu t2 ht2
    cases hfind : t0.buttons.find? (fun x => decide (x.pos_x = px ∧ x.pos_y = py)) with
    | none => rw [hfind] at ht2; cases ht2
    | some x0 =>
      rw [hfind] at ht2
      injection ht2 with h2
      subst h2
      exact List.Pairwise.sublist (List.eraseP_sublist _) tu
  · intro s b cn tn cat tab btn hb hc ht hany
    refine edit_item_book_inner_error hb (edit_category_in_book_inner_error hc
      (edit_tab_in_category_inner_error ht ?_))
    simp only [hany]
    simp

/-- Witness for C7: on the sample book (one button at (2, 3) in tab 1 of
category 1), adding another button at (2, 3) fails with `AlreadyExists`
and leaves the state unchanged, while adding a button at the free
position (0, 0) preserves the uniqueness invariant. -/
theorem C7_button_position_uniqueness_witness :
    add_button_to_tab_in_category_in_item_book "T1" "B1" 1 1 { pos_x := 2, pos_y := 3 }
        [sample_item_book] =
      (Except.error (ItemBookError.alreadyExists ItemBookLevel.button), [sample_item_book]) ∧
    state_buttons_unique
      (add_button_to_tab_in_category_in_item_book "T1" "B1" 1 1 { pos_x := 0, pos_y := 0 }
        [sample_item_book]).2 := by
  constructor
  · exact (C7_button_position_uniqueness "T1" "B1").2.2.2.2.2.2.2.2.2.2
      [sample_item_book] sample_item_book 1 1 sample_item_book_category sample_item_book_tab
      { pos_x := 2, pos_y := 3 } (by decide) (by decide) (by decide) (by decide)
  · exact (C7_button_position_uniqueness "T1" "B1").2.2.2.2.2.2.2.1
      1 1 { pos_x := 0, pos_y := 0 } [sample_item_book] (by decide)

end PosMasterData
